import Mathlib

/-!
Verification of the travel_marvel alternative-destination and route-waypoint engine.

This file gives a shallow embedding, in Lean, of the core algorithms of the
repository:

* `backend/utils/helper_functions.py` (`distance_km`),
* `backend/utils/poi_route_safety.py` (`point_to_line_distance_km`,
  `deduplicate_pois`, `filter_progressive_pois`),
* `backend/services/poi/poi_discovery_service.py`
  (`discover_pois_along_route`, `_optimize_poi_selection`),
* `backend/services/alternatives_discovery/category_mapping.py`,
* `backend/services/alternatives_discovery/similar_poi_finder.py`
  (`_distance_km`, `SimilarPOIFinder.build_index`, `find_similar`),
* `backend/services/alternatives_discovery/alternatives_discovery_service.py`
  (`discover_local_alternatives`),

and proves or refutes the specification claims about them.

Modelling conventions:

* Python floats are modelled as real numbers (exact arithmetic).
* Python exceptions are modelled with `Except String`; a `.error` value marks
  the exception the corresponding Python code would raise.
* External collaborators (the FAISS vector index response, the embedding
  model, the Nominatim resolver, the scenic-boost relief heuristic) are
  passed in as oracle parameters; everything else follows the Python source.
* Python's stable `list.sort` / `sorted` is modelled by `List.insertionSort`,
  which is also stable, with the same key-based comparison.
-/

namespace TravelMarvel

/-! ## Python primitives -/

/-- Python `round` on a float: round-half-to-even (banker's rounding).
At a tie (`fract x = 1/2`) the result is the nearest even integer;
otherwise it agrees with rounding to nearest. -/
noncomputable def pyRound (x : ℝ) : ℤ :=
  if Int.fract x = 1 / 2 then 2 * round (x / 2) else round x

/-- Python `round(x, 6)`: round to six decimal digits. -/
noncomputable def pyRound6 (x : ℝ) : ℝ :=
  (pyRound (x * 1000000) : ℝ) / 1000000

/-- Python `int(x)` on a float: truncation toward zero. -/
noncomputable def pyTrunc (x : ℝ) : ℤ :=
  if 0 ≤ x then ⌊x⌋ else -⌊-x⌋

/-- Python slice `l[:n]` for an integer `n`, including the negative case
(`l[:-k]` drops the last `k` elements). -/
def pySliceTo {α : Type} (l : List α) (n : ℤ) : List α :=
  if 0 ≤ n then l.take n.toNat else l.take (l.length - (-n).toNat)

/-- Python `s or default` for an optional string: `None` and the empty
string are falsy. -/
def pyOrStr (s : Option String) (d : String) : String :=
  match s with
  | none => d
  | some v => if v = "" then d else v

/-- Python `x or 0` for an optional float: `None` and `0.0` are both sent
to `0`, which coincides with `Option.getD · 0`. -/
def pyOr0 (x : Option ℝ) : ℝ := x.getD 0

/-- `float(d.get(key, 0.0))` for an optional float field of a POI dict. -/
def pyGetF (x : Option ℝ) : ℝ := x.getD 0

/-- `(d.get("category") or "unknown")`: `None` and `""` fall back. -/
def pyCategory (c : Option String) : String := pyOrStr c "unknown"

/-- Python `str.lower()` (ASCII case mapping, applied characterwise — the
category labels are ASCII). -/
def pyLower (s : String) : String := String.mk (s.data.map Char.toLower)

/-! ## GeoMath (`helper_functions.py`, `similar_poi_finder.py`) -/

/-- `math.radians`. -/
noncomputable def radians (x : ℝ) : ℝ := x * Real.pi / 180

/-- `math.atan2 y x` (C library semantics on the reals). -/
noncomputable def atan2 (y x : ℝ) : ℝ :=
  if 0 < x then Real.arctan (y / x)
  else if x < 0 then
    (if 0 ≤ y then Real.arctan (y / x) + Real.pi else Real.arctan (y / x) - Real.pi)
  else if 0 < y then Real.pi / 2
  else if y < 0 then -(Real.pi / 2)
  else 0

/-- `helper_functions.distance_km`: haversine distance, Earth radius 6371 km,
final angle via `atan2`. -/
noncomputable def distance_km (lat1 lon1 lat2 lon2 : ℝ) : ℝ :=
  let R : ℝ := 6371.0
  let dlat := radians (lat2 - lat1)
  let dlon := radians (lon2 - lon1)
  let a := Real.sin (dlat / 2) ^ 2 +
    Real.cos (radians lat1) * Real.cos (radians lat2) * Real.sin (dlon / 2) ^ 2
  let c := 2 * atan2 (Real.sqrt a) (Real.sqrt (1 - a))
  R * c

/-- `similar_poi_finder._distance_km`: haversine distance via `asin`. -/
noncomputable def finder_distance_km (a b : ℝ × ℝ) : ℝ :=
  let radius : ℝ := 6371.0
  let dlat := radians (b.1 - a.1)
  let dlon := radians (b.2 - a.2)
  let hav := Real.sin (dlat / 2) ^ 2 +
    Real.cos (radians a.1) * Real.cos (radians b.1) * Real.sin (dlon / 2) ^ 2
  2 * radius * Real.arcsin (Real.sqrt hav)

/-- `poi_route_safety.point_to_line_distance_km`, exactly as written in the
source.  The call sites pass `px = lat`, `py = lon`, so `y1, y2, py` are
longitudes; the code nevertheless applies the `cos` scaling to the `y`
deltas using those `y` (longitude) values.  Returns
`(distance_km, position_along_route)`. -/
noncomputable def point_to_line_distance_km (px py x1 y1 x2 y2 : ℝ) : ℝ × ℝ :=
  let dx := (x2 - x1) * 111.0
  let dy := (y2 - y1) * 111.0 * Real.cos (radians ((y1 + y2) / 2))
  let dpx := (px - x1) * 111.0
  let dpy := (py - y1) * 111.0 * Real.cos (radians ((y1 + py) / 2))
  let line_len_sq := dx * dx + dy * dy
  if line_len_sq < 1e-10 then
    (Real.sqrt (dpx * dpx + dpy * dpy), 0.0)
  else
    let t := max 0 (min 1 ((dpx * dx + dpy * dy) / line_len_sq))
    let closest_x := x1 + t * (x2 - x1)
    let closest_y := y1 + t * (y2 - y1)
    (distance_km px py closest_x closest_y, t)

/-- Modelled from the spec (section 4.1 `projectOntoSegment`), for comparison
with `point_to_line_distance_km`: the local Cartesian frame scales the
longitude deltas by the cosine of the mean *latitude* (in radians) and both
axes by 111.0 km/degree; `t = clamp01(dot(p-a, b-a)/|b-a|^2)`; the returned
perpendicular distance is the haversine `distance_km` to the projected
closest point; a degenerate segment returns `t = 0` and the point's absolute
(local-frame) distance to the segment start. -/
noncomputable def projectOntoSegmentSpec (pLat pLon aLat aLon bLat bLon : ℝ) : ℝ × ℝ :=
  let dx := (bLat - aLat) * 111.0
  let dy := (bLon - aLon) * 111.0 * Real.cos (radians ((aLat + bLat) / 2))
  let dpx := (pLat - aLat) * 111.0
  let dpy := (pLon - aLon) * 111.0 * Real.cos (radians ((aLat + pLat) / 2))
  let line_len_sq := dx * dx + dy * dy
  if line_len_sq < 1e-10 then
    (Real.sqrt (dpx * dpx + dpy * dpy), 0.0)
  else
    let t := max 0 (min 1 ((dpx * dx + dpy * dy) / line_len_sq))
    let closest_x := aLat + t * (bLat - aLat)
    let closest_y := aLon + t * (bLon - aLon)
    (distance_km pLat pLon closest_x closest_y, t)

/-- `find_similar`'s score fusion:
`final_score = alpha * max(0.0, min(1.0, cosine)) + (1.0 - alpha) * boost`. -/
noncomputable def finalScore (alpha cosine boost : ℝ) : ℝ :=
  alpha * max 0 (min 1 cosine) + (1 - alpha) * boost

/-! ## Data model (`backend/models/poi.py`) -/

/-- `models.poi.PointOfInterest` (a Python dataclass, hence structural
equality).  `tags` is a key/value bag; only its presence matters here. -/
structure PointOfInterest where
  name : String
  lat : ℝ
  lon : ℝ
  poi_type : String
  source : String
  tags : List (String × String)
  score : Option ℝ
  distance_from_route_km : Option ℝ
  position_along_route : Option ℝ

noncomputable instance : DecidableEq PointOfInterest := Classical.decEq _

/-! ## Route safety (`backend/utils/poi_route_safety.py`) -/

/-- The `seen`-keyed loop of `deduplicate_pois`: POIs whose rounded
`(lat, lon)` key has been seen are dropped, first occurrence wins. -/
noncomputable def dedupAux (threshold_deg : ℝ) :
    List PointOfInterest → List (ℤ × ℤ) → List PointOfInterest
  | [], _ => []
  | p :: rest, seen =>
    let key := (pyRound (p.lat / threshold_deg), pyRound (p.lon / threshold_deg))
    if key ∈ seen then dedupAux threshold_deg rest seen
    else p :: dedupAux threshold_deg rest (key :: seen)

/-- `poi_route_safety.deduplicate_pois`. -/
noncomputable def deduplicate_pois (pois : List PointOfInterest)
    (distance_threshold_m : ℝ) : List PointOfInterest :=
  match pois with
  | [] => []
  | p :: rest => dedupAux (distance_threshold_m / 111000.0) (p :: rest) []

/-- The loop of `filter_progressive_pois`: keep a POI iff its distance to the
destination is at most `current_distance + tolerance_km`, then update
`current_distance := min current_distance (poi_distance + tolerance_km)`. -/
noncomputable def filterProgressiveAux (end_lat end_lon tolerance_km : ℝ) :
    ℝ → List PointOfInterest → List PointOfInterest
  | _, [] => []
  | current, p :: rest =>
    let poi_distance := distance_km p.lat p.lon end_lat end_lon
    if poi_distance ≤ current + tolerance_km then
      p :: filterProgressiveAux end_lat end_lon tolerance_km
        (min current (poi_distance + tolerance_km)) rest
    else
      filterProgressiveAux end_lat end_lon tolerance_km current rest

/-- `poi_route_safety.filter_progressive_pois`. -/
noncomputable def filter_progressive_pois (pois : List PointOfInterest)
    (start_lat start_lon end_lat end_lon tolerance_km : ℝ) : List PointOfInterest :=
  match pois with
  | [] => []
  | p :: rest =>
    filterProgressiveAux end_lat end_lon tolerance_km
      (distance_km start_lat start_lon end_lat end_lon) (p :: rest)

/-! ## Waypoint selection (`backend/services/poi/poi_discovery_service.py`) -/

/-- The annotation loop of `discover_pois_along_route`: store the projection
parameter in `position_along_route` and the distance to the destination in
`distance_from_route_km`. -/
noncomputable def annotatePoi (start_lat start_lon end_lat end_lon : ℝ)
    (p : PointOfInterest) : PointOfInterest :=
  let t := (point_to_line_distance_km p.lat p.lon start_lat start_lon end_lat end_lon).2
  { p with
    position_along_route := some t
    distance_from_route_km := some (distance_km p.lat p.lon end_lat end_lon) }

/-- Sort key `p.position_along_route or 0`. -/
def posOr0 (p : PointOfInterest) : ℝ := pyOr0 p.position_along_route

/-- `sorted(deduplicated, key=lambda p: p.position_along_route or 0)`. -/
noncomputable def sortByPosition (pois : List PointOfInterest) : List PointOfInterest :=
  List.insertionSort (fun a b => posOr0 a ≤ posOr0 b) pois

/-- The `prioritize_scenic` branch: stable-partition into scored/unscored,
sort the scored part by score descending (stable), recombine. -/
noncomputable def prioritizeScenic (pois : List PointOfInterest) : List PointOfInterest :=
  let scored_pois := pois.filter (fun p => p.score.isSome)
  let unscored_pois := pois.filter (fun p => p.score.isNone)
  let scored_sorted :=
    List.insertionSort (fun a b => -(pyOr0 a.score) ≤ -(pyOr0 b.score)) scored_pois
  scored_sorted ++ unscored_pois

/-- Sort key `(-(p.score or 0), p.position_along_route or 0)` used for the
per-segment sort and the `remaining` sort in `_optimize_poi_selection`
(lexicographic tuple comparison). -/
def segKeyLe (a b : PointOfInterest) : Prop :=
  -(pyOr0 a.score) < -(pyOr0 b.score) ∨
    (-(pyOr0 a.score) = -(pyOr0 b.score) ∧ posOr0 a ≤ posOr0 b)

/-- Sort key `(-(p.score or 0), p.lat, p.lon)` used for the no-position
fallback and the without-position fill in `_optimize_poi_selection`. -/
def latLonKeyLe (a b : PointOfInterest) : Prop :=
  -(pyOr0 a.score) < -(pyOr0 b.score) ∨
    (-(pyOr0 a.score) = -(pyOr0 b.score) ∧
      (a.lat < b.lat ∨ (a.lat = b.lat ∧ a.lon ≤ b.lon)))

noncomputable instance : DecidableRel segKeyLe := fun _ _ => Classical.dec _

noncomputable instance : DecidableRel latLonKeyLe := fun _ _ => Classical.dec _

instance : IsTotal PointOfInterest segKeyLe :=
  ⟨by
    intro a b
    unfold segKeyLe
    rcases lt_trichotomy (-(pyOr0 a.score)) (-(pyOr0 b.score)) with h | h | h
    · exact Or.inl (Or.inl h)
    · rcases le_total (posOr0 a) (posOr0 b) with h2 | h2
      · exact Or.inl (Or.inr ⟨h, h2⟩)
      · exact Or.inr (Or.inr ⟨h.symm, h2⟩)
    · exact Or.inr (Or.inl h)⟩

instance : IsTrans PointOfInterest segKeyLe :=
  ⟨by
    intro a b c hab hbc
    unfold segKeyLe at *
    rcases hab with h1 | ⟨h1s, h1r⟩ <;> rcases hbc with h2 | ⟨h2s, h2r⟩
    · exact Or.inl (lt_trans h1 h2)
    · exact Or.inl (h2s ▸ h1)
    · exact Or.inl (h1s ▸ h2)
    · exact Or.inr ⟨h1s.trans h2s, le_trans h1r h2r⟩⟩

instance : IsTotal PointOfInterest latLonKeyLe :=
  ⟨by
    intro a b
    unfold latLonKeyLe
    rcases lt_trichotomy (-(pyOr0 a.score)) (-(pyOr0 b.score)) with h | h | h
    · exact Or.inl (Or.inl h)
    · rcases lt_trichotomy a.lat b.lat with h2 | h2 | h2
      · exact Or.inl (Or.inr ⟨h, Or.inl h2⟩)
      · rcases le_total a.lon b.lon with h3 | h3
        · exact Or.inl (Or.inr ⟨h, Or.inr ⟨h2, h3⟩⟩)
        · exact Or.inr (Or.inr ⟨h.symm, Or.inr ⟨h2.symm, h3⟩⟩)
      · exact Or.inr (Or.inr ⟨h.symm, Or.inl h2⟩)
    · exact Or.inr (Or.inl h)⟩

instance : IsTrans PointOfInterest latLonKeyLe :=
  ⟨by
    intro a b c hab hbc
    unfold latLonKeyLe at *
    rcases hab with h1 | ⟨h1s, h1r⟩ <;> rcases hbc with h2 | ⟨h2s, h2r⟩
    · exact Or.inl (lt_trans h1 h2)
    · exact Or.inl (h2s ▸ h1)
    · exact Or.inl (h1s ▸ h2)
    · refine Or.inr ⟨h1s.trans h2s, ?_⟩
      rcases h1r with h3 | ⟨h3s, h3r⟩ <;> rcases h2r with h4 | ⟨h4s, h4r⟩
      · exact Or.inl (lt_trans h3 h4)
      · exact Or.inl (h4s ▸ h3)
      · exact Or.inl (h3s ▸ h4)
      · exact Or.inr ⟨h3s.trans h4s, le_trans h3r h4r⟩⟩

/-- Final sort key
`p.position_along_route if p.position_along_route is not None else 999`. -/
def posKey999 (p : PointOfInterest) : ℝ := p.position_along_route.getD 999

/-- Final sort relation of `_optimize_poi_selection`. -/
def posKeyLe (a b : PointOfInterest) : Prop := posKey999 a ≤ posKey999 b

noncomputable instance : DecidableRel posKeyLe := fun _ _ => Classical.dec _

instance : IsTotal PointOfInterest posKeyLe := ⟨fun _ _ => le_total _ _⟩

instance : IsTrans PointOfInterest posKeyLe := ⟨fun _ _ _ => le_trans⟩

/-- Segment index `min(int(p.position_along_route / segment_size), n - 1)`
of a POI for `n` segments of width `1/n` (the loop assumes the position is
not `None`; `pyOr0` is only a total-function placeholder for that case). -/
noncomputable def segIdx (n : ℤ) (p : PointOfInterest) : ℤ :=
  min (pyTrunc (pyOr0 p.position_along_route / (1 / (n : ℝ)))) (n - 1)

/-- Python list read `l[i]`, with negative-index wrap-around and
`IndexError` out of range. -/
def pyListGet {α : Type} (l : List α) (i : ℤ) : Except String α :=
  if h : 0 ≤ i ∧ i.toNat < l.length then .ok (l.get ⟨i.toNat, h.2⟩)
  else if h2 : i < 0 ∧ 0 ≤ i + l.length ∧ (i + l.length).toNat < l.length then
    .ok (l.get ⟨(i + l.length).toNat, h2.2.2⟩)
  else .error "IndexError"

/-- Python `l[i] = v`, with negative-index wrap-around and `IndexError`. -/
def pyListSet {α : Type} (l : List α) (i : ℤ) (v : α) : Except String (List α) :=
  if 0 ≤ i ∧ i.toNat < l.length then .ok (l.set i.toNat v)
  else if i < 0 ∧ 0 ≤ i + l.length ∧ (i + l.length).toNat < l.length then
    .ok (l.set (i + l.length).toNat v)
  else .error "IndexError"

/-- The segment-bucketing loop of `_optimize_poi_selection`:
`segments[segment_idx].append(poi)` over all positioned POIs. -/
noncomputable def assignSegments (n : ℤ) :
    List PointOfInterest → List (List PointOfInterest) →
    Except String (List (List PointOfInterest))
  | [], segs => .ok segs
  | p :: rest, segs =>
    match pyListGet segs (segIdx n p) with
    | .error e => .error e
    | .ok seg =>
      match pyListSet segs (segIdx n p) (seg ++ [p]) with
      | .error e => .error e
      | .ok segs2 => assignSegments n rest segs2

/-- `poi_discovery_service._optimize_poi_selection`.  `Except` carries the
exception Python would raise (`ZeroDivisionError` for `1.0 / 0` segments,
`IndexError` for an out-of-range segment index). -/
noncomputable def optimize_poi_selection (pois : List PointOfInterest)
    (max_count : ℤ) : Except String (List PointOfInterest) :=
  if (pois.length : ℤ) ≤ max_count then .ok pois
  else
    let pois_with_position := pois.filter (fun p => p.position_along_route.isSome)
    let pois_without_position := pois.filter (fun p => p.position_along_route.isNone)
    match pois_with_position with
    | [] => .ok (pySliceTo (List.insertionSort latLonKeyLe pois) max_count)
    | q :: qs =>
      if max_count = 0 then .error "ZeroDivisionError"
      else
        match assignSegments max_count (q :: qs) (List.replicate max_count.toNat []) with
        | .error e => .error e
        | .ok segments =>
          let selected := segments.filterMap
            (fun seg => (List.insertionSort segKeyLe seg).head?)
          let remaining := pois_with_position.filter (fun p => p ∉ selected)
          let selected2 := selected ++
            pySliceTo (List.insertionSort segKeyLe remaining)
              (max_count - selected.length)
          let selected3 :=
            if (selected2.length : ℤ) < max_count ∧ pois_without_position ≠ [] then
              selected2 ++
                pySliceTo (List.insertionSort latLonKeyLe pois_without_position)
                  (max_count - selected2.length)
            else selected2
          .ok (pySliceTo (List.insertionSort posKeyLe selected3) max_count)

/-- The pipeline stage of `discover_pois_along_route` up to and including the
progressive filter: deduplicate, annotate positions and distances, sort by
position along the corridor, apply the progressive-approach filter. -/
noncomputable def discoverProgressive (all_pois : List PointOfInterest)
    (start_lat start_lon end_lat end_lon progressive_tolerance_km : ℝ) :
    List PointOfInterest :=
  let deduplicated := deduplicate_pois all_pois 100
  let annotated := deduplicated.map (annotatePoi start_lat start_lon end_lat end_lon)
  let ordered_pois := sortByPosition annotated
  filter_progressive_pois ordered_pois start_lat start_lon end_lat end_lon
    progressive_tolerance_km

/-- `poi_discovery_service.discover_pois_along_route`, from the point where
the candidate pool `all_pois` has been gathered from the external OSM/ORS
sources.  `max_pois` is passed explicitly (the auto-calculation from the
route distance only fills it in when the caller omits it); the
detour-estimate logging is omitted as pure observability. -/
noncomputable def discover_pois_along_route (all_pois : List PointOfInterest)
    (start_lat start_lon end_lat end_lon : ℝ) (max_pois : ℤ)
    (progressive_tolerance_km : ℝ) (prioritize_scenic : Bool) :
    Except String (List PointOfInterest) :=
  let progressive_pois :=
    discoverProgressive all_pois start_lat start_lon end_lat end_lon
      progressive_tolerance_km
  let progressive_pois2 :=
    if prioritize_scenic then prioritizeScenic progressive_pois else progressive_pois
  match optimize_poi_selection progressive_pois2 max_pois with
  | .error e => .error e
  | .ok selected =>
    .ok (filter_progressive_pois selected start_lat start_lon end_lat end_lon
      progressive_tolerance_km)

/-! ## Category mapping
(`backend/services/alternatives_discovery/category_mapping.py`) -/

/-- `CATEGORY_EQUIV` as an ordered association list (Python dicts preserve
insertion order; the value sets are used only for membership tests). -/
def CATEGORY_EQUIV : List (String × List String) :=
  [("lake", ["lake", "lagoon", "reservoir", "pond", "fjord", "glacial_lake",
    "crater_lake"]),
   ("waterfall", ["waterfall", "cascade"]),
   ("beach", ["beach", "bay", "shore", "coastline"]),
   ("viewpoint", ["viewpoint", "peak", "summit", "overlook", "cliff"]),
   ("park", ["park", "protected_area", "nature_reserve"]),
   ("castle", ["castle", "fortress"]),
   ("church", ["church", "cathedral", "basilica", "monastery"]),
   ("museum", ["museum"]),
   ("unknown", ["unknown"])]

/-- `SUBTYPE_TO_COARSE`. -/
def SUBTYPE_TO_COARSE : List (String × String) :=
  [("lagoon", "lake"), ("reservoir", "lake"), ("pond", "lake"),
   ("fjord", "lake"), ("cascade", "waterfall"), ("cathedral", "church"),
   ("basilica", "church"), ("monastery", "church"), ("fortress", "castle"),
   ("protected_area", "park"), ("nature_reserve", "park")]

/-- `category_mapping.matching_buckets`. -/
def matching_buckets (query_category : String) : List String :=
  let q := pyLower (pyOrStr (some query_category) "unknown")
  let allowed := match CATEGORY_EQUIV.lookup q with
    | some members => members
    | none => [q]
  CATEGORY_EQUIV.filterMap (fun kv =>
    if kv.1 ∈ allowed ∨ kv.2.inter allowed ≠ [] then some kv.1 else none)

/-- The category remap of `build_index`:
`if category not in buckets: category = SUBTYPE_TO_COARSE.get(category,
category if category in buckets else "unknown")`. -/
def remapCategory (category : String) : String :=
  if category ∈ CATEGORY_EQUIV.map Prod.fst then category
  else (SUBTYPE_TO_COARSE.lookup category).getD "unknown"

/-! ## Similarity ranker
(`backend/services/alternatives_discovery/similar_poi_finder.py`) -/

/-- A resolver/discovery POI record (a Python dict in the source): fields
may be absent or `None`, both modelled by `none`. -/
structure PoiDict where
  name : Option String
  lat : Option ℝ
  lon : Option ℝ
  category : Option String
  tags : List (String × String)

noncomputable instance : BEq PoiDict :=
  ⟨fun a b => a.name == b.name && a.category == b.category &&
    a.tags == b.tags && decide (a.lat = b.lat) && decide (a.lon = b.lon)⟩

/-- `embedding_index.TextIndex`: only the metadata list matters for the
claims; the FAISS vectors are held by the external index. -/
structure TextIndex where
  meta : List PoiDict

/-- `TextIndex.search`, with `raw` the `(idx, score)` stream produced by the
external FAISS index for the embedded query (the `topn` cap is part of that
oracle): out-of-range indices are skipped, others map to `meta[idx]`. -/
def TextIndex.search (ti : TextIndex) (raw : List (ℤ × ℝ)) : List (PoiDict × ℝ) :=
  raw.filterMap (fun pr =>
    if h : 0 ≤ pr.1 ∧ pr.1.toNat < ti.meta.length then
      some (ti.meta.get ⟨pr.1.toNat, h.2⟩, pr.2)
    else none)

/-- `SimilarPOIFinder` state (the embedding model itself is external;
`meta_by_cat` mirrors the index metadata and is not read by the claims). -/
structure SimilarPOIFinder where
  alpha : ℝ
  radius_km : ℝ
  user_center : Option (ℝ × ℝ)
  index_by_cat : List (String × TextIndex)

/-- The candidate loop of `build_index`: skip records without parseable
coordinates, skip records farther than `radius_km` from `user_center`,
remap the category, append to its bucket (the remapped category is always
one of the nine keys, so `setdefault` never extends the dict). -/
noncomputable def buildBuckets (radius_km : ℝ) (user_center : ℝ × ℝ) :
    List PoiDict → List (String × List PoiDict) → List (String × List PoiDict)
  | [], buckets => buckets
  | poi :: rest, buckets =>
    match poi.lat, poi.lon with
    | some plat, some plon =>
      if finder_distance_km (plat, plon) user_center > radius_km then
        buildBuckets radius_km user_center rest buckets
      else
        let category := remapCategory (pyLower (pyCategory poi.category))
        buildBuckets radius_km user_center rest
          (buckets.map (fun kv =>
            if kv.1 = category then (kv.1, kv.2 ++ [poi]) else kv))
    | _, _ => buildBuckets radius_km user_center rest buckets

/-- `SimilarPOIFinder.build_index`: set `user_center`, bucket the regional
pool, build one `TextIndex` per non-empty bucket. -/
noncomputable def build_index (f : SimilarPOIFinder) (regional_pois : List PoiDict)
    (user_center : ℝ × ℝ) : SimilarPOIFinder :=
  let buckets := buildBuckets f.radius_km user_center regional_pois
    (CATEGORY_EQUIV.map (fun kv => (kv.1, ([] : List PoiDict))))
  { f with
    user_center := some user_center
    index_by_cat := buckets.filterMap (fun kv =>
      match kv.2 with
      | [] => none
      | m => some (kv.1, TextIndex.mk m)) }

/-- The cross-bucket deduplication key
`(item.get("name"), round(lat, 6), round(lon, 6), item.get("category"))`. -/
noncomputable def hitKey (item : PoiDict) : Option String × ℝ × ℝ × Option String :=
  (item.name, pyRound6 (pyGetF item.lat), pyRound6 (pyGetF item.lon), item.category)

/-- The self-match key `(round(lat, 6), round(lon, 6), lowered category)`. -/
noncomputable def selfKey (item : PoiDict) : ℝ × ℝ × String :=
  (pyRound6 (pyGetF item.lat), pyRound6 (pyGetF item.lon),
    pyLower (pyCategory item.category))

/-- The dedup-and-radius loop of `find_similar`: a hit whose key was already
seen is skipped; otherwise the key is recorded (before the radius test, as
in the source) and the hit is dropped when `user_center` is set and the hit
is farther than `radius_km` from it. -/
noncomputable def dedupRadius (user_center : Option (ℝ × ℝ)) (radius_km : ℝ) :
    List (PoiDict × ℝ) → List (Option String × ℝ × ℝ × Option String) →
    List (PoiDict × ℝ)
  | [], _ => []
  | (item, cosine) :: rest, seen =>
    let key := hitKey item
    if key ∈ seen then dedupRadius user_center radius_km rest seen
    else
      match user_center with
      | some c =>
        if finder_distance_km (pyGetF item.lat, pyGetF item.lon) c > radius_km then
          dedupRadius user_center radius_km rest (key :: seen)
        else
          (item, cosine) :: dedupRadius user_center radius_km rest (key :: seen)
      | none =>
        (item, cosine) :: dedupRadius user_center radius_km rest (key :: seen)

/-- One suggestion entry of the `find_similar` output (and of the
orchestrator's degraded fallback, where `score` is `None`). -/
structure AltEntry where
  name : Option String
  lonlat : List ℝ
  score : Option ℝ
  category : String
  tags : List (String × String)

/-- One per-query result of `find_similar`.  `query_name` is optional
because the orchestrator fallback stores the raw `seed["name"]`. -/
structure SimilarityResult where
  query_name : Option String
  query_lonlat : List ℝ
  results : List AltEntry

/-- The body of `find_similar`'s per-query loop.  `boost` is the
`scenic_boost` heuristic (external relief collaborator inside) and `ann`
is the FAISS response for a query in a given bucket. -/
noncomputable def processQuery (f : SimilarPOIFinder) (boost : PoiDict → ℝ)
    (ann : PoiDict → String → List (ℤ × ℝ)) (topk_each : ℕ)
    (query : PoiDict) : SimilarityResult :=
  let name := pyOrStr query.name "poi"
  let category := pyLower (pyCategory query.category)
  let lonlat := [pyGetF query.lon, pyGetF query.lat]
  let buckets := matching_buckets category
  let hits := buckets.flatMap (fun b =>
    match f.index_by_cat.lookup b with
    | none => []
    | some idx => idx.search (ann query b))
  let deduped := dedupRadius f.user_center f.radius_km hits []
  let query_key : ℝ × ℝ × String :=
    (pyRound6 (pyGetF query.lat), pyRound6 (pyGetF query.lon), category)
  let scored := deduped.filterMap (fun ic =>
    if selfKey ic.1 = query_key then none
    else some (ic.1, finalScore f.alpha ic.2 (boost ic.1)))
  let scored_sorted := List.insertionSort
    (fun a b : PoiDict × ℝ => b.2 ≤ a.2) scored
  let top_hits := scored_sorted.take topk_each
  { query_name := some name
    query_lonlat := lonlat
    results := top_hits.map (fun ps =>
      { name := ps.1.name
        lonlat := [pyGetF ps.1.lon, pyGetF ps.1.lat]
        score := some ps.2
        category := pyCategory ps.1.category
        tags := ps.1.tags }) }

/-- `SimilarPOIFinder.find_similar`: raises when no bucket has been built,
otherwise one `SimilarityResult` per seed POI, in order. -/
noncomputable def find_similar (f : SimilarPOIFinder) (boost : PoiDict → ℝ)
    (ann : PoiDict → String → List (ℤ × ℝ)) (seed_pois : List PoiDict)
    (topk_each : ℕ) : Except String (List SimilarityResult) :=
  match f.index_by_cat with
  | [] => .error "Similarity index is empty. Call build_index() first."
  | _ => .ok (seed_pois.map (processQuery f boost ann topk_each))

/-! ## Orchestrator
(`backend/services/alternatives_discovery/alternatives_discovery_service.py`) -/

/-- A `target_pois` / `regional_candidates` input dict (`name` + optional
`hint`). -/
structure TargetSpec where
  name : String
  hint : Option String

/-- `alternatives_discovery_service._to_poi` (a missing `lat`/`lon` would
raise in Python; records reaching this point always carry coordinates). -/
noncomputable def to_poi (record : PoiDict) (source : String) (score : Option ℝ) :
    PointOfInterest :=
  { name := record.name.getD "Unnamed POI"
    lat := pyGetF record.lat
    lon := pyGetF record.lon
    poi_type := pyCategory record.category
    source := source
    tags := record.tags
    score := score
    distance_from_route_km := none
    position_along_route := none }

/-- One entry of the orchestrator's degraded fallback result list
(`score` is `None`, candidates in original order). -/
def fallbackEntry (cand : PoiDict) : AltEntry :=
  { name := cand.name
    lonlat := [pyGetF cand.lon, pyGetF cand.lat]
    score := none
    category := pyCategory cand.category
    tags := cand.tags }

/-- An element of the orchestrator output: the alternative as a
`PointOfInterest` plus the raw resolved record. -/
structure AltPair where
  destination : PointOfInterest
  raw : PoiDict

/-- The `record = next(...)` lookup plus `_to_poi` of the orchestrator's
per-alternative loop: find the first resolved candidate with the same name
and coordinates within `1e-5`, else synthesize a record from the entry. -/
noncomputable def mkAltPair (resolved_candidates : List PoiDict)
    (alt : AltEntry) : AltPair :=
  let alt_lat := (alt.lonlat.get? 1).getD 0
  let alt_lon := (alt.lonlat.get? 0).getD 0
  let record := (resolved_candidates.find? (fun cand =>
    cand.name == alt.name && decide (|pyGetF cand.lat - alt_lat| < 1e-5) &&
      decide (|pyGetF cand.lon - alt_lon| < 1e-5))).getD
    { name := alt.name
      lat := some alt_lat
      lon := some alt_lon
      category := some alt.category
      tags := alt.tags }
  { destination := to_poi record "local_alternative" alt.score
    raw := record }

/-- Python-dict insertion `output[key] = value`: update in place when the
key exists, else append. -/
def pyDictSet {α : Type} (l : List (Option String × α)) (key : Option String)
    (value : α) : List (Option String × α) :=
  if l.any (fun kv => kv.1 == key) then
    l.map (fun kv => if kv.1 == key then (kv.1, value) else kv)
  else l ++ [(key, value)]

/-- `alternatives_discovery_service.discover_local_alternatives`.
`resolveOne`/`resolveBatch` stand for the external Nominatim resolver,
`boost` for `scenic_boost`, `ann` for the FAISS search responses.  The
output is the Python dict keyed by the seed name. -/
noncomputable def discover_local_alternatives
    (resolveOne : TargetSpec → Option PoiDict)
    (resolveBatch : List TargetSpec → List (Option PoiDict))
    (boost : PoiDict → ℝ) (ann : PoiDict → String → List (ℤ × ℝ))
    (user_center : ℝ × ℝ) (target_pois : List TargetSpec)
    (regional_candidates : List TargetSpec) (radius_km : ℝ) (topk_each : ℕ) :
    Except String (List (Option String × List AltPair)) :=
  let resolved_targets := (target_pois.map resolveOne).reduceOption
  match resolved_targets with
  | [] => .error "Failed to resolve any target POIs via Nominatim."
  | _ =>
    let resolved_candidates := (resolveBatch regional_candidates).reduceOption
    match resolved_candidates with
    | [] => .error "Failed to resolve any regional candidate POIs via Nominatim."
    | _ =>
      let finder : SimilarPOIFinder :=
        { alpha := 0.7, radius_km := radius_km, user_center := none,
          index_by_cat := [] }
      let finder2 := build_index finder resolved_candidates user_center
      let suggestions :=
        match find_similar finder2 boost ann resolved_targets topk_each with
        | .ok s => s
        | .error _ =>
          resolved_targets.map (fun seed =>
            { query_name := seed.name
              query_lonlat := [pyGetF seed.lon, pyGetF seed.lat]
              results := (resolved_candidates.take topk_each).map fallbackEntry })
      .ok ((resolved_targets.zip suggestions).foldl
        (fun output sp =>
          pyDictSet output sp.1.name
            (sp.2.results.map (mkAltPair resolved_candidates)))
        [])

/-! ## Exact evaluation of the haversine distances

On a meridian (equal longitudes) or on the equator, both haversine variants
evaluate exactly to `KM` kilometres per degree of separation, where
`KM = 6371·π/180`. -/

/-- Kilometres per degree of great-circle arc at Earth radius 6371 km. -/
noncomputable def KM : ℝ := 6371 * Real.pi / 180

lemma KM_pos : 0 < KM := by
  unfold KM
  positivity

lemma atan2_sin_cos {θ : ℝ} (h0 : 0 ≤ θ) (h1 : θ < Real.pi / 2) :
    atan2 (Real.sin θ) (Real.cos θ) = θ := by
  have hπ := Real.pi_pos
  have hc : 0 < Real.cos θ := Real.cos_pos_of_mem_Ioo ⟨by linarith, h1⟩
  rw [atan2, if_pos hc, ← Real.tan_eq_sin_div_cos,
    Real.arctan_tan (by linarith) h1]

lemma abs_radians (d : ℝ) : |radians d| = |d| * Real.pi / 180 := by
  rw [radians, abs_div, abs_mul, abs_of_pos Real.pi_pos,
    abs_of_pos (by norm_num : (0 : ℝ) < 180)]

lemma radians_half_lt {d : ℝ} (h : |d| < 180) : |radians d| / 2 < Real.pi / 2 := by
  have hπ := Real.pi_pos
  rw [abs_radians]
  rw [div_lt_div_iff₀ (by norm_num) (by norm_num : (0:ℝ) < 2)] at *
  nlinarith

lemma sin_sq_radians_half (d : ℝ) :
    Real.sin (radians d / 2) ^ 2 = Real.sin (|radians d| / 2) ^ 2 := by
  rcases abs_cases (radians d) with ⟨he, _⟩ | ⟨he, _⟩
  · rw [he]
  · rw [he, neg_div, Real.sin_neg]
    ring

lemma haversine_angle {d : ℝ} (h : |d| < 180) :
    2 * atan2 (Real.sqrt (Real.sin (radians d / 2) ^ 2))
      (Real.sqrt (1 - Real.sin (radians d / 2) ^ 2)) = |radians d| := by
  have hπ := Real.pi_pos
  have hθ0 : 0 ≤ |radians d| / 2 := by positivity
  have hθ1 : |radians d| / 2 < Real.pi / 2 := radians_half_lt h
  have hs : 0 ≤ Real.sin (|radians d| / 2) :=
    Real.sin_nonneg_of_nonneg_of_le_pi hθ0 (by linarith)
  have hc : 0 ≤ Real.cos (|radians d| / 2) :=
    Real.cos_nonneg_of_mem_Icc ⟨by linarith, le_of_lt hθ1⟩
  rw [sin_sq_radians_half, Real.sqrt_sq_eq_abs, abs_of_nonneg hs,
    ← Real.cos_sq' (|radians d| / 2), Real.sqrt_sq_eq_abs, abs_of_nonneg hc,
    atan2_sin_cos hθ0 hθ1]
  ring

/-- `distance_km` between two points on a common meridian. -/
lemma distance_km_same_lon (lat1 lat2 lon : ℝ) (h : |lat2 - lat1| < 180) :
    distance_km lat1 lon lat2 lon = KM * |lat2 - lat1| := by
  unfold distance_km
  have h0 : radians (lon - lon) = 0 := by simp [radians]
  simp only [h0]
  norm_num [Real.sin_zero]
  rw [haversine_angle h, abs_radians, KM]
  ring

/-- `distance_km` between two points on the equator. -/
lemma distance_km_equator (lon1 lon2 : ℝ) (h : |lon2 - lon1| < 180) :
    distance_km 0 lon1 0 lon2 = KM * |lon2 - lon1| := by
  unfold distance_km
  have h0 : radians (0 - 0) = 0 := by simp [radians]
  have h1 : radians 0 = 0 := by simp [radians]
  simp only [h0, h1]
  norm_num [Real.sin_zero, Real.cos_zero]
  rw [haversine_angle h, abs_radians, KM]
  ring

/-- `_distance_km` (the `asin`-based variant) between equator points. -/
lemma finder_distance_km_equator (lon1 lon2 : ℝ) (h : |lon2 - lon1| < 180) :
    finder_distance_km (0, lon1) (0, lon2) = KM * |lon2 - lon1| := by
  unfold finder_distance_km
  have h0 : radians (0 - 0) = 0 := by simp [radians]
  have h1 : radians 0 = 0 := by simp [radians]
  simp only [h0, h1]
  norm_num [Real.sin_zero, Real.cos_zero]
  have hθ0 : 0 ≤ |radians (lon2 - lon1)| / 2 := by positivity
  have hθ1 : |radians (lon2 - lon1)| / 2 < Real.pi / 2 := radians_half_lt h
  have hs : 0 ≤ Real.sin (|radians (lon2 - lon1)| / 2) :=
    Real.sin_nonneg_of_nonneg_of_le_pi hθ0 (by linarith [Real.pi_pos])
  rw [sin_sq_radians_half, Real.sqrt_sq_eq_abs, abs_of_nonneg hs,
    Real.arcsin_sin (by linarith) (le_of_lt hθ1), abs_radians, KM]
  ring

/-! ## C9: monotonicity of the fused score -/

/-- C9: with the blending weight `α` fixed in `[0,1]` (default 0.7),
`finalScore = α·clamp01(cosine) + (1-α)·scenicBoost` is monotone
non-decreasing in the cosine for fixed boost, and in the boost for fixed
cosine. -/
theorem c9_finalScore_monotone (alpha : ℝ) (h0 : 0 ≤ alpha) (h1 : alpha ≤ 1)
    (boost cosine : ℝ) :
    Monotone (fun c => finalScore alpha c boost) ∧
    Monotone (fun b => finalScore alpha cosine b) := by
  constructor
  · intro x y hxy
    simp only [finalScore]
    have hclamp : max 0 (min 1 x) ≤ max 0 (min 1 y) :=
      max_le_max le_rfl (min_le_min le_rfl hxy)
    nlinarith
  · intro x y hxy
    simp only [finalScore]
    nlinarith

/-- Witness for C9 at the default weight `α = 0.7`. -/
theorem c9_finalScore_monotone_witness :
    (0 : ℝ) ≤ 0.7 ∧ (0.7 : ℝ) ≤ 1 ∧
      finalScore 0.7 0.3 0.2 ≤ finalScore 0.7 0.9 0.2 ∧
      finalScore 0.7 0.9 0.1 ≤ finalScore 0.7 0.9 0.2 :=
  ⟨by norm_num, by norm_num,
    (c9_finalScore_monotone 0.7 (by norm_num) (by norm_num) 0.2 0.9).1
      (by norm_num : (0.3 : ℝ) ≤ 0.9),
    (c9_finalScore_monotone 0.7 (by norm_num) (by norm_num) 0.2 0.9).2
      (by norm_num : (0.1 : ℝ) ≤ 0.2)⟩

/-! ## C6: the local Cartesian frame of the projection

The code scales the longitude deltas by the cosine of the mean *longitude*
(`y1, y2, py` are longitudes at every call site), not the mean latitude the
spec describes.  At point (0°, 90°) on the equatorial segment from (0°, 0°)
to (0°, 180°) the code's frame degenerates (`cos 90° = 0`), so the code
returns the Cartesian fallback `(4995·√2 ≈ 7064 km, t = 0)` while the
spec-modelled projection returns `(0 km, t = 1/2)`. -/

/-- C6: evaluating `point_to_line_distance_km` and the spec-modelled
`projectOntoSegment` at point (0, 90) against the segment (0,0)–(0,180):
the code and the spec disagree, because the code's Cartesian frame uses the
cosine of the mean longitude instead of the mean latitude. -/
theorem c6_projection_frame_divergence :
    point_to_line_distance_km 0 90 0 0 0 180 = (4995 * Real.sqrt 2, 0) ∧
    projectOntoSegmentSpec 0 90 0 0 0 180 = (0, 1 / 2) := by
  have hr90 : radians ((0 + 180) / 2) = Real.pi / 2 := by
    rw [radians]
    ring
  have hr45 : radians ((0 + 90) / 2) = Real.pi / 4 := by
    rw [radians]
    ring
  have hr0 : radians ((0 + 0) / 2) = 0 := by
    rw [radians]
    ring
  constructor
  · unfold point_to_line_distance_km
    rw [hr90, hr45]
    norm_num [Real.cos_pi_div_two, Real.cos_pi_div_four]
    rw [show (9990 : ℝ) * (Real.sqrt 2 / 2) * (9990 * (Real.sqrt 2 / 2)) =
        (4995 * Real.sqrt 2) ^ 2 by ring]
    rw [Real.sqrt_sq (by positivity)]
  · unfold projectOntoSegmentSpec
    rw [hr0]
    norm_num [Real.cos_zero]
    rw [distance_km_equator 90 90 (by norm_num)]
    norm_num

/-! ## C10: unrecognized query categories match no bucket -/

lemma lookup_eq_none_of_forall_ne {β : Type} {a : String} :
    ∀ {l : List (String × β)}, (∀ kv ∈ l, a ≠ kv.1) → l.lookup a = none := by
  intro l
  induction l with
  | nil => intro _; rfl
  | cons kv es ih =>
    intro h
    obtain ⟨k, b⟩ := kv
    rw [List.lookup_cons]
    have hb : (a == k) = false := beq_eq_false_iff_ne.mpr (h (k, b) (by simp))
    rw [hb]
    exact ih (fun x hx => h x (by simp [hx]))

/-- C10: a (lowercased, non-empty) query category that is neither one of the
nine coarse labels nor a subtype occurring in any equivalence set yields
`matching_buckets = []`, so `find_similar` returns an entry with an empty
results list for such a query — no error, and no fallback to the `unknown`
bucket (whatever the index holds and whatever the FAISS oracle would
answer) — even though `build_index`'s remap sends unrecognized *candidate*
categories to the `unknown` bucket. -/
theorem c10_unrecognized_category (cat : String) (hne : cat ≠ "")
    (hfix : pyLower cat = cat)
    (h : ∀ kv ∈ CATEGORY_EQUIV, cat ≠ kv.1 ∧ cat ∉ kv.2) :
    matching_buckets cat = [] ∧
    remapCategory cat = "unknown" ∧
    ∀ (f : SimilarPOIFinder) (boost : PoiDict → ℝ)
      (ann : PoiDict → String → List (ℤ × ℝ)) (seed_pois : List PoiDict)
      (topk : ℕ) (q : PoiDict) (i : ℕ),
      f.index_by_cat ≠ [] →
      seed_pois[i]? = some q →
      pyLower (pyCategory q.category) = cat →
      ∃ res, find_similar f boost ann seed_pois topk = .ok res ∧
        ∃ r, res[i]? = some r ∧ r.results = [] := by
  have hq : pyLower (pyOrStr (some cat) "unknown") = cat := by
    simp [pyOrStr, hne, hfix]
  have hmb : matching_buckets cat = [] := by
    unfold matching_buckets
    rw [hq]
    have hlook : CATEGORY_EQUIV.lookup cat = none :=
      lookup_eq_none_of_forall_ne (fun kv hkv => (h kv hkv).1)
    simp only [hlook]
    rw [List.filterMap_eq_nil_iff]
    intro kv hkv
    rw [if_neg]
    push_neg
    constructor
    · simp only [List.mem_singleton]
      exact fun he => (h kv hkv).1 he.symm
    · show kv.2 ∩ [cat] = []
      rw [List.inter_eq_nil_iff_disjoint]
      intro x hx hx2
      simp only [List.mem_singleton] at hx2
      subst hx2
      exact (h kv hkv).2 hx
  refine ⟨hmb, ?_, ?_⟩
  · unfold remapCategory
    rw [if_neg, lookup_eq_none_of_forall_ne]
    · rfl
    · intro kv hkv
      simp only [SUBTYPE_TO_COARSE, List.mem_cons, List.not_mem_nil] at hkv
      rcases hkv with hk|hk|hk|hk|hk|hk|hk|hk|hk|hk|hk|hk
      · exact fun he => (h ("lake", ["lake", "lagoon", "reservoir", "pond",
          "fjord", "glacial_lake", "crater_lake"]) (by simp [CATEGORY_EQUIV])).2
          (by rw [he, hk]; simp)
      · exact fun he => (h ("lake", ["lake", "lagoon", "reservoir", "pond",
          "fjord", "glacial_lake", "crater_lake"]) (by simp [CATEGORY_EQUIV])).2
          (by rw [he, hk]; simp)
      · exact fun he => (h ("lake", ["lake", "lagoon", "reservoir", "pond",
          "fjord", "glacial_lake", "crater_lake"]) (by simp [CATEGORY_EQUIV])).2
          (by rw [he, hk]; simp)
      · exact fun he => (h ("lake", ["lake", "lagoon", "reservoir", "pond",
          "fjord", "glacial_lake", "crater_lake"]) (by simp [CATEGORY_EQUIV])).2
          (by rw [he, hk]; simp)
      · exact fun he => (h ("waterfall", ["waterfall", "cascade"])
          (by simp [CATEGORY_EQUIV])).2 (by rw [he, hk]; simp)
      · exact fun he => (h ("church", ["church", "cathedral", "basilica",
          "monastery"]) (by simp [CATEGORY_EQUIV])).2 (by rw [he, hk]; simp)
      · exact fun he => (h ("church", ["church", "cathedral", "basilica",
          "monastery"]) (by simp [CATEGORY_EQUIV])).2 (by rw [he, hk]; simp)
      · exact fun he => (h ("church", ["church", "cathedral", "basilica",
          "monastery"]) (by simp [CATEGORY_EQUIV])).2 (by rw [he, hk]; simp)
      · exact fun he => (h ("castle", ["castle", "fortress"])
          (by simp [CATEGORY_EQUIV])).2 (by rw [he, hk]; simp)
      · exact fun he => (h ("park", ["park", "protected_area", "nature_reserve"])
          (by simp [CATEGORY_EQUIV])).2 (by rw [he, hk]; simp)
      · exact fun he => (h ("park", ["park", "protected_area", "nature_reserve"])
          (by simp [CATEGORY_EQUIV])).2 (by rw [he, hk]; simp)
      · exact absurd hk (by simp)
    · intro hmem
      simp only [CATEGORY_EQUIV, List.map_cons, List.map_nil, List.mem_cons,
        List.not_mem_nil, or_false] at hmem
      rcases hmem with hk|hk|hk|hk|hk|hk|hk|hk|hk
      all_goals first
      | exact (h ("lake", ["lake", "lagoon", "reservoir", "pond", "fjord",
          "glacial_lake", "crater_lake"]) (by simp [CATEGORY_EQUIV])).1 hk
      | exact (h ("waterfall", ["waterfall", "cascade"])
          (by simp [CATEGORY_EQUIV])).1 hk
      | exact (h ("beach", ["beach", "bay", "shore", "coastline"])
          (by simp [CATEGORY_EQUIV])).1 hk
      | exact (h ("viewpoint", ["viewpoint", "peak", "summit", "overlook",
          "cliff"]) (by simp [CATEGORY_EQUIV])).1 hk
      | exact (h ("park", ["park", "protected_area", "nature_reserve"])
          (by simp [CATEGORY_EQUIV])).1 hk
      | exact (h ("castle", ["castle", "fortress"])
          (by simp [CATEGORY_EQUIV])).1 hk
      | exact (h ("church", ["church", "cathedral", "basilica", "monastery"])
          (by simp [CATEGORY_EQUIV])).1 hk
      | exact (h ("museum", ["museum"]) (by simp [CATEGORY_EQUIV])).1 hk
      | exact (h ("unknown", ["unknown"]) (by simp [CATEGORY_EQUIV])).1 hk
  · intro f boost ann seed_pois topk q i hf hqi hcat
    refine ⟨seed_pois.map (processQuery f boost ann topk), ?_, ?_⟩
    · unfold find_similar
      cases hfi : f.index_by_cat with
      | nil => exact absurd hfi hf
      | cons a l => simp only [hfi]
    · refine ⟨processQuery f boost ann topk q, ?_, ?_⟩
      · simp [List.getElem?_map, hqi]
      · simp only [processQuery, hcat, hmb]
        simp [dedupRadius]

/-- Witness for C10: the category `volcano` matches no bucket, and a query
with it gets an empty result list even though the finder's index has a
non-empty `unknown` bucket and the FAISS oracle would return a hit there. -/
theorem c10_unrecognized_category_witness :
    matching_buckets "volcano" = [] ∧
    remapCategory "volcano" = "unknown" ∧
    ∃ res,
      find_similar
        ⟨0.7, 200, some (0, 0),
          [("unknown", ⟨[⟨some "U", some 0, some 0, some "unknown", []⟩]⟩)]⟩
        (fun _ => 0)
        (fun _ b => if b = "unknown" then [((0 : ℤ), (1 : ℝ))] else [])
        [⟨some "V", some 1, some 2, some "volcano", []⟩] 5 = .ok res ∧
      ∃ r, res[0]? = some r ∧ r.results = [] := by
  obtain ⟨h1, h2, h3⟩ := c10_unrecognized_category "volcano" (by decide)
    (by decide) (by decide)
  exact ⟨h1, h2, h3 _ _ _ _ 5 ⟨some "V", some 1, some 2, some "volcano", []⟩ 0
    (by simp) rfl rfl⟩

/-! ## C2, C3: radius constraint and self-match suppression of the ranker -/

lemma dedupRadius_within {c : ℝ × ℝ} {radius : ℝ} :
    ∀ {hits : List (PoiDict × ℝ)} {seen} {pr : PoiDict × ℝ},
      pr ∈ dedupRadius (some c) radius hits seen →
      finder_distance_km (pyGetF pr.1.lat, pyGetF pr.1.lon) c ≤ radius := by
  intro hits
  induction hits with
  | nil => intro seen pr hpr; simp [dedupRadius] at hpr
  | cons ic rest ih =>
    intro seen pr hpr
    obtain ⟨item, cosine⟩ := ic
    rw [dedupRadius] at hpr
    by_cases hseen : hitKey item ∈ seen
    · rw [if_pos hseen] at hpr
      exact ih hpr
    · rw [if_neg hseen] at hpr
      by_cases hfar :
          finder_distance_km (pyGetF item.lat, pyGetF item.lon) c > radius
      · rw [if_pos hfar] at hpr
        exact ih hpr
      · rw [if_neg hfar] at hpr
        rcases List.mem_cons.mp hpr with he | hm
        · subst he
          exact le_of_not_lt hfar
        · exact ih hm

lemma build_index_user_center (f : SimilarPOIFinder) (pool : List PoiDict)
    (center : ℝ × ℝ) : (build_index f pool center).user_center = some center :=
  rfl

lemma build_index_radius (f : SimilarPOIFinder) (pool : List PoiDict)
    (center : ℝ × ℝ) : (build_index f pool center).radius_km = f.radius_km :=
  rfl

lemma find_similar_ok_mem {f : SimilarPOIFinder} {boost ann}
    {seeds : List PoiDict} {topk : ℕ} {res : List SimilarityResult}
    (hok : find_similar f boost ann seeds topk = .ok res)
    {r : SimilarityResult} (hr : r ∈ res) :
    ∃ q ∈ seeds, r = processQuery f boost ann topk q := by
  unfold find_similar at hok
  split at hok
  · exact absurd hok (by simp)
  · simp only [Except.ok.injEq] at hok
    subst hok
    obtain ⟨q, hq, he⟩ := List.mem_map.mp hr
    exact ⟨q, hq, he.symm⟩

/-- The items surfaced in a `processQuery` result all come from the
dedup-radius stage. -/
lemma processQuery_results_mem {f : SimilarPOIFinder} {boost ann topk}
    {q : PoiDict} {e : AltEntry}
    (he : e ∈ (processQuery f boost ann topk q).results) :
    ∃ item score, e =
      { name := item.name
        lonlat := [pyGetF item.lon, pyGetF item.lat]
        score := some score
        category := pyCategory item.category
        tags := item.tags } ∧
      (∃ cosine, (item, cosine) ∈
        dedupRadius f.user_center f.radius_km
          ((matching_buckets (pyLower (pyCategory q.category))).flatMap
            (fun b =>
              match f.index_by_cat.lookup b with
              | none => []
              | some idx => idx.search (ann q b)) : List (PoiDict × ℝ)) []) ∧
      selfKey item ≠ (pyRound6 (pyGetF q.lat), pyRound6 (pyGetF q.lon),
        pyLower (pyCategory q.category)) := by
  simp only [processQuery] at he
  obtain ⟨ps, hps, hpe⟩ := List.mem_map.mp he
  obtain ⟨item, score⟩ := ps
  refine ⟨item, score, hpe.symm, ?_, ?_⟩
  all_goals {
    have hsorted := List.mem_of_mem_take hps
    rw [List.mem_insertionSort] at hsorted
    obtain ⟨ic, hic, hics⟩ := List.mem_filterMap.mp hsorted
    by_cases hself : selfKey ic.1 =
        (pyRound6 (pyGetF q.lat), pyRound6 (pyGetF q.lon),
          pyLower (pyCategory q.category))
    · rw [if_pos hself] at hics
      exact absurd hics (by simp)
    · rw [if_neg hself] at hics
      have hinj := Option.some.inj hics
      have h1 : ic.1 = item := congrArg Prod.fst hinj
      first
      | exact ⟨ic.2, by rw [← h1]; exact hic⟩
      | { rw [← h1]; exact hself } }

/-- C2: after `build_index` (which sets `user_center`), every alternative
returned by `find_similar` lies within `radius_km` of the user center:
the dedup loop re-filters every hit against the radius. -/
theorem c2_alternatives_within_radius (f0 : SimilarPOIFinder)
    (pool : List PoiDict) (center : ℝ × ℝ) (boost : PoiDict → ℝ)
    (ann : PoiDict → String → List (ℤ × ℝ)) (seeds : List PoiDict) (topk : ℕ)
    (res : List SimilarityResult)
    (hok : find_similar (build_index f0 pool center) boost ann seeds topk = .ok res)
    (r : SimilarityResult) (hr : r ∈ res) (e : AltEntry) (he : e ∈ r.results)
    (lon lat : ℝ) (hll : e.lonlat = [lon, lat]) :
    finder_distance_km (lat, lon) center ≤ f0.radius_km := by
  obtain ⟨q, hq, rfl⟩ := find_similar_ok_mem hok hr
  obtain ⟨item, score, he2, ⟨cosine, hdedup⟩, -⟩ := processQuery_results_mem he
  have hlonlat : [lon, lat] = [pyGetF item.lon, pyGetF item.lat] := by
    rw [← hll, he2]
  have hlon : lon = pyGetF item.lon := by
    simpa using congrArg (fun l => l.getD 0 0) hlonlat
  have hlat : lat = pyGetF item.lat := by
    simpa using congrArg (fun l => l.getD 1 0) hlonlat
  rw [build_index_user_center] at hdedup
  have := dedupRadius_within hdedup
  rw [build_index_radius] at this
  rw [hlat, hlon]
  exact this

/-- C3: `find_similar` never returns a hit whose rounded
`(lat, lon, lowered category)` key equals the query's own key; in
particular a query included verbatim in the pool never appears in its own
results. -/
theorem c3_no_self_match (f : SimilarPOIFinder) (boost : PoiDict → ℝ)
    (ann : PoiDict → String → List (ℤ × ℝ)) (seeds : List PoiDict) (topk : ℕ)
    (res : List SimilarityResult)
    (hok : find_similar f boost ann seeds topk = .ok res)
    (i : ℕ) (q : PoiDict) (r : SimilarityResult)
    (hq : seeds[i]? = some q) (hr : res[i]? = some r)
    (e : AltEntry) (he : e ∈ r.results) (lon lat : ℝ)
    (hll : e.lonlat = [lon, lat]) :
    ¬(pyRound6 lat = pyRound6 (pyGetF q.lat) ∧
      pyRound6 lon = pyRound6 (pyGetF q.lon) ∧
      pyLower e.category = pyLower (pyCategory q.category)) := by
  rintro ⟨hklat, hklon, hkcat⟩
  unfold find_similar at hok
  split at hok
  · exact absurd hok (by simp)
  · simp only [Except.ok.injEq] at hok
    subst hok
    rw [List.getElem?_map, hq, Option.map_some'] at hr
    have hrq : r = processQuery f boost ann topk q := (Option.some.inj hr).symm
    subst hrq
    obtain ⟨item, score, he2, -, hself⟩ := processQuery_results_mem he
    apply hself
    have hlonlat : [lon, lat] = [pyGetF item.lon, pyGetF item.lat] := by
      rw [← hll, he2]
    have hlon : lon = pyGetF item.lon := by
      simpa using congrArg (fun l => l.getD 0 0) hlonlat
    have hlat : lat = pyGetF item.lat := by
      simpa using congrArg (fun l => l.getD 1 0) hlonlat
    have hcat : e.category = pyCategory item.category := by
      rw [he2]
    unfold selfKey
    rw [← hlat, ← hlon, ← hcat]
    exact Prod.ext hklat (Prod.ext hklon hkcat)

/-! ### Concrete evaluation helpers -/

lemma pyRound_intCast (n : ℤ) : pyRound (n : ℝ) = n := by
  unfold pyRound
  rw [if_neg, round_intCast]
  rw [Int.fract_intCast]
  norm_num

lemma pyRound6_intCast (n : ℤ) : pyRound6 (n : ℝ) = n := by
  unfold pyRound6
  rw [show ((n : ℝ) * 1000000) = ((n * 1000000 : ℤ) : ℝ) by push_cast; ring,
    pyRound_intCast]
  push_cast
  ring

lemma pyRound6_zero : pyRound6 0 = 0 := by
  simpa using pyRound6_intCast 0

lemma pyRound6_one : pyRound6 1 = 1 := by
  simpa using pyRound6_intCast 1

lemma finder_distance_km_self (p : ℝ × ℝ) : finder_distance_km p p = 0 := by
  unfold finder_distance_km
  simp [radians]

/-- The fixed candidate, query, boost and FAISS oracle used in the
ranker witnesses. -/
noncomputable def candW : PoiDict := ⟨some "A", some 0, some 0, some "lake", []⟩

noncomputable def queryW : PoiDict := ⟨some "Q", some 0, some 1, some "lake", []⟩

noncomputable def entryW : AltEntry :=
  ⟨some "A", [0, 0], some (finalScore 0.7 0.9 0), "lake", []⟩

noncomputable def annW : PoiDict → String → List (ℤ × ℝ) :=
  fun _ b => if b = "lake" then [((0 : ℤ), (0.9 : ℝ))] else []

lemma ranker_witness_build :
    build_index ⟨0.7, 200, none, []⟩ [candW] (0, 0) =
      ⟨0.7, 200, some (0, 0), [("lake", ⟨[candW]⟩)]⟩ := by
  have hremap : remapCategory (pyLower (pyCategory (some "lake"))) = "lake" := by
    decide
  unfold build_index buildBuckets
  norm_num [candW, finder_distance_km_self, hremap, CATEGORY_EQUIV]
  simp [buildBuckets]

lemma ranker_witness_search :
    (TextIndex.mk [candW]).search (annW queryW "lake") = [(candW, 0.9)] := by
  unfold TextIndex.search annW
  norm_num [List.filterMap]

lemma ranker_witness_dedup :
    dedupRadius (some (0 : ℝ × ℝ)) 200 [(candW, 0.9)] [] =
      [(candW, 0.9)] := by
  unfold dedupRadius
  rw [if_neg (by simp)]
  norm_num [dedupRadius, candW, pyGetF, finder_distance_km_self]

lemma ranker_witness_eval :
    find_similar (build_index ⟨0.7, 200, none, []⟩ [candW] (0, 0)) (fun _ => 0)
      annW [queryW] 5 =
    .ok [⟨some "Q", [1, 0], [entryW]⟩] := by
  rw [ranker_witness_build]
  unfold find_similar
  simp only [List.map_cons, List.map_nil]
  congr 1
  simp only [processQuery]
  rw [show pyLower (pyCategory queryW.category) = "lake" from by decide]
  rw [show matching_buckets "lake" = ["lake"] from by decide]
  simp only [List.flatMap_cons, List.flatMap_nil, List.lookup_cons,
    List.append_nil]
  norm_num
  rw [ranker_witness_search, ranker_witness_dedup]
  have hnotself : ¬(selfKey candW =
      (pyRound6 (pyGetF queryW.lat), pyRound6 (pyGetF queryW.lon), "lake")) := by
    unfold selfKey candW queryW
    norm_num [pyGetF, pyRound6_zero, pyRound6_one]
  simp only [List.filterMap_cons, List.filterMap_nil, if_neg hnotself]
  simp [List.insertionSort, List.orderedInsert, entryW, candW, queryW,
    pyOrStr, pyGetF, pyCategory]
  norm_num

/-- Witness for C2: a pool with one lake candidate at the user center and a
query 1° away; the returned alternative is within the 200 km radius. -/
theorem c2_alternatives_within_radius_witness :
    find_similar (build_index ⟨0.7, 200, none, []⟩ [candW] (0, 0)) (fun _ => 0)
      annW [queryW] 5 = .ok [⟨some "Q", [1, 0], [entryW]⟩] ∧
    finder_distance_km (0, 0) (0, 0) ≤ 200 :=
  ⟨ranker_witness_eval,
    c2_alternatives_within_radius ⟨0.7, 200, none, []⟩ [candW] (0, 0)
      (fun _ => 0) annW [queryW] 5 _ ranker_witness_eval
      ⟨some "Q", [1, 0], [entryW]⟩ (by simp) entryW (by simp) 0 0 rfl⟩

/-- Witness for C3: the returned alternative's rounded key differs from the
query's own key. -/
theorem c3_no_self_match_witness :
    find_similar (build_index ⟨0.7, 200, none, []⟩ [candW] (0, 0)) (fun _ => 0)
      annW [queryW] 5 = .ok [⟨some "Q", [1, 0], [entryW]⟩] ∧
    ¬(pyRound6 0 = pyRound6 (pyGetF queryW.lat) ∧
      pyRound6 0 = pyRound6 (pyGetF queryW.lon) ∧
      pyLower entryW.category = pyLower (pyCategory queryW.category)) :=
  ⟨ranker_witness_eval,
    c3_no_self_match (build_index ⟨0.7, 200, none, []⟩ [candW] (0, 0))
      (fun _ => 0) annW [queryW] 5 _ ranker_witness_eval 0 queryW
      ⟨some "Q", [1, 0], [entryW]⟩ rfl rfl entryW (by simp) 0 0 rfl⟩

/-! ## C7: empty-index failure and the orchestrator's degraded fallback -/

lemma pyDictSet_forall {α : Type} {v : α} {acc : List (Option String × α)}
    (h : ∀ p ∈ acc, p.2 = v) (k : Option String) :
    ∀ p ∈ pyDictSet acc k v, p.2 = v := by
  intro p hp
  unfold pyDictSet at hp
  split at hp
  · obtain ⟨q, hq, he⟩ := List.mem_map.mp hp
    by_cases hqk : (q.1 == k) = true
    · rw [if_pos hqk] at he
      rw [← he]
    · rw [if_neg hqk] at he
      rw [← he]
      exact h q hq
  · rcases List.mem_append.mp hp with hm | hm
    · exact h p hm
    · simp only [List.mem_singleton] at hm
      rw [hm]

lemma pyDictSet_ne_nil {α : Type} (acc : List (Option String × α)) (k v) :
    pyDictSet acc k v ≠ [] := by
  unfold pyDictSet
  split
  · intro hc
    rw [List.map_eq_nil_iff] at hc
    subst hc
    simp_all
  · simp

lemma foldl_pyDictSet_forall {γ α : Type} (v : α) (key : γ → Option String)
    (val : γ → α) :
    ∀ (l : List γ) (acc : List (Option String × α)),
      (∀ x ∈ l, val x = v) → (∀ p ∈ acc, p.2 = v) →
      ∀ p ∈ l.foldl (fun out x => pyDictSet out (key x) (val x)) acc, p.2 = v := by
  intro l
  induction l with
  | nil => intro acc _ hacc p hp; exact hacc p hp
  | cons x xs ih =>
    intro acc hl hacc p hp
    rw [List.foldl_cons] at hp
    refine ih _ (fun y hy => hl y (by simp [hy])) ?_ p hp
    have hx : val x = v := hl x (by simp)
    rw [hx]
    exact pyDictSet_forall hacc (key x)

lemma foldl_pyDictSet_ne_nil {γ α : Type} (key : γ → Option String)
    (val : γ → α) :
    ∀ (l : List γ) (acc : List (Option String × α)), acc ≠ [] →
      l.foldl (fun out x => pyDictSet out (key x) (val x)) acc ≠ [] := by
  intro l
  induction l with
  | nil => intro acc h; exact h
  | cons x xs ih =>
    intro acc _
    rw [List.foldl_cons]
    exact ih _ (pyDictSet_ne_nil acc (key x) (val x))

/-- C7: querying with no category bucket built raises
(`RuntimeError`, the spec's `IndexNotBuiltError`), and the orchestrator
catches the failure and returns, for every target, the first `topk`
resolved regional candidates unscored (`score = none`) in their original
order, instead of failing the request. -/
theorem c7_empty_index_fallback :
    (∀ (f : SimilarPOIFinder) (boost : PoiDict → ℝ)
      (ann : PoiDict → String → List (ℤ × ℝ)) (seeds : List PoiDict) (topk : ℕ),
      f.index_by_cat = [] →
      find_similar f boost ann seeds topk =
        .error "Similarity index is empty. Call build_index() first.") ∧
    (∀ (resolveOne : TargetSpec → Option PoiDict)
      (resolveBatch : List TargetSpec → List (Option PoiDict))
      (boost : PoiDict → ℝ) (ann : PoiDict → String → List (ℤ × ℝ))
      (user_center : ℝ × ℝ) (targets cands : List TargetSpec) (radius : ℝ)
      (topk : ℕ),
      (targets.map resolveOne).reduceOption ≠ [] →
      (resolveBatch cands).reduceOption ≠ [] →
      (build_index ⟨0.7, radius, none, []⟩ ((resolveBatch cands).reduceOption)
        user_center).index_by_cat = [] →
      ∃ out, discover_local_alternatives resolveOne resolveBatch boost ann
          user_center targets cands radius topk = .ok out ∧
        out ≠ [] ∧
        ∀ pair ∈ out,
          pair.2 = (((resolveBatch cands).reduceOption.take topk).map
            fallbackEntry).map
              (mkAltPair ((resolveBatch cands).reduceOption)) ∧
          ∀ a ∈ pair.2, a.destination.score = none) := by
  have hfs : ∀ (f : SimilarPOIFinder) (boost : PoiDict → ℝ)
      (ann : PoiDict → String → List (ℤ × ℝ)) (seeds : List PoiDict) (topk : ℕ),
      f.index_by_cat = [] →
      find_similar f boost ann seeds topk =
        .error "Similarity index is empty. Call build_index() first." := by
    intro f boost ann seeds topk hf
    unfold find_similar
    rw [hf]
  refine ⟨hfs, ?_⟩
  intro r1 rB boost ann center targets cands radius topk hrt hrc hempty
  unfold discover_local_alternatives
  cases hrtv : (targets.map r1).reduceOption with
  | nil => exact absurd hrtv hrt
  | cons t ts =>
    cases hrcv : (rB cands).reduceOption with
    | nil => exact absurd hrcv hrc
    | cons c cs =>
      rw [hrcv] at hempty
      have herr := hfs (build_index ⟨0.7, radius, none, []⟩ (c :: cs) center)
        boost ann (t :: ts) topk hempty
      simp only [hrtv, hrcv, herr]
      refine ⟨_, rfl, ?_, ?_⟩
      · simp only [List.map_cons, List.zip_cons_cons, List.foldl_cons]
        exact foldl_pyDictSet_ne_nil
          (fun sp : PoiDict × SimilarityResult => sp.1.name)
          (fun sp => sp.2.results.map (mkAltPair (c :: cs))) _ _
          (pyDictSet_ne_nil _ _ _)
      · intro pair hpair
        have hval := foldl_pyDictSet_forall
          ((((c :: cs).take topk).map fallbackEntry).map (mkAltPair (c :: cs)))
          (fun sp : PoiDict × SimilarityResult => sp.1.name)
          (fun sp => sp.2.results.map (mkAltPair (c :: cs)))
          ((t :: ts).zip ((t :: ts).map (fun seed =>
            ({ query_name := seed.name
               query_lonlat := [pyGetF seed.lon, pyGetF seed.lat]
               results := ((c :: cs).take topk).map fallbackEntry } :
              SimilarityResult)))) []
          (by
            intro sp hsp
            obtain ⟨seed, -, hseed⟩ := List.mem_map.mp (List.of_mem_zip hsp).2
            show List.map (mkAltPair (c :: cs)) sp.2.results = _
            rw [← hseed])
          (by simp) pair hpair
        refine ⟨hval, ?_⟩
        intro a ha
        rw [hval] at ha
        obtain ⟨e, he, hae⟩ := List.mem_map.mp ha
        obtain ⟨cand, -, hce⟩ := List.mem_map.mp he
        rw [← hae, ← hce]
        rfl

/-- Resolved target and far-away regional candidate for the C7 witness. -/
noncomputable def qdW : PoiDict := ⟨some "Target", some 0, some 0, some "castle", []⟩

noncomputable def cdW : PoiDict := ⟨some "C", some 0, some 90, some "lake", []⟩

lemma cdW_far : finder_distance_km (0, 90) (0, 0) > 200 := by
  have h := finder_distance_km_equator 90 0 (by norm_num)
  rw [h, KM]
  have hπ := Real.pi_gt_three
  rw [show |(0 : ℝ) - 90| = 90 by norm_num]
  nlinarith

lemma c7_witness_build :
    (build_index ⟨0.7, 200, none, []⟩ [cdW] (0, 0)).index_by_cat = [] := by
  unfold build_index buildBuckets
  simp only [cdW]
  rw [if_pos cdW_far]
  simp [buildBuckets, CATEGORY_EQUIV]

/-- Witness for C7: one resolved target, one resolved candidate 90° of
longitude away (≈ 10000 km, outside the 200 km radius), so no bucket is
built; the orchestrator returns the candidate itself, unscored. -/
theorem c7_empty_index_fallback_witness :
    ∃ out, discover_local_alternatives (fun _ => some qdW)
        (fun _ => [some cdW]) (fun _ => 0) (fun _ _ => []) (0, 0)
        [⟨"Target", none⟩] [⟨"C", none⟩] 200 5 = .ok out ∧
      out ≠ [] ∧
      ∀ pair ∈ out, pair.2 = [mkAltPair [cdW] (fallbackEntry cdW)] ∧
        ∀ a ∈ pair.2, a.destination.score = none := by
  have hred : ((fun _ : List TargetSpec => [some cdW]) [⟨"C", none⟩]).reduceOption
      = [cdW] := by simp
  obtain ⟨out, hok, hne, hall⟩ := c7_empty_index_fallback.2
    (fun _ => some qdW) (fun _ => [some cdW]) (fun _ => 0) (fun _ _ => [])
    (0, 0) [⟨"Target", none⟩] [⟨"C", none⟩] 200 5
    (by simp) (by simp) (by rw [hred]; exact c7_witness_build)
  refine ⟨out, hok, hne, ?_⟩
  intro pair hp
  obtain ⟨h1, h2⟩ := hall pair hp
  refine ⟨?_, h2⟩
  rw [h1, hred]
  simp

/-! ## C8: non-positive `maxPois` is not validated -/

/-- Counterexample to C8: `discover_pois_along_route` with `maxPois = 0`
and an empty candidate pool succeeds and returns `[]`; no `InvalidArgument`
(or any other) error is raised — there is no `maxPois` validation in the
code. -/
theorem c8_counterexample :
    discover_pois_along_route [] 0 0 0 1 0 1 true = .ok [] ∧ (0 : ℤ) ≤ 0 := by
  constructor
  · unfold discover_pois_along_route discoverProgressive deduplicate_pois
      filter_progressive_pois sortByPosition prioritizeScenic
      optimize_poi_selection
    simp [List.insertionSort]
  · exact le_refl 0

lemma optimize_poi_selection_nil (m : ℤ) :
    optimize_poi_selection [] m = .ok [] := by
  unfold optimize_poi_selection
  split
  · rfl
  · simp [pySliceTo, List.insertionSort]

/-- C8 amended: the waypoint selector performs no `maxPois` validation; a
call with `maxPois ≤ 0` does not fail with `InvalidArgument` — with an
empty candidate pool it succeeds and returns the empty list. -/
theorem c8_amended_no_validation (start_lat start_lon end_lat end_lon tol : ℝ)
    (max_pois : ℤ) (hm : max_pois ≤ 0) (prioritize : Bool) :
    discover_pois_along_route [] start_lat start_lon end_lat end_lon max_pois
      tol prioritize = .ok [] := by
  unfold discover_pois_along_route discoverProgressive deduplicate_pois
    filter_progressive_pois sortByPosition prioritizeScenic
  simp only [List.map_nil, List.insertionSort, List.filter_nil,
    List.append_nil, ite_self]
  rw [optimize_poi_selection_nil]

/-- Witness for the amended C8 at `maxPois = 0`. -/
theorem c8_amended_no_validation_witness :
    (0 : ℤ) ≤ 0 ∧ discover_pois_along_route [] 3 4 5 6 0 2 false = .ok [] :=
  ⟨le_refl 0, c8_amended_no_validation 3 4 5 6 2 0 (le_refl 0) false⟩

/-! ## C1: the progressive-approach guarantee

The filter keeps a POI when its distance to the destination is at most
`current + tol`, then lowers `current` to at most `poi_distance + tol`.
Between two consecutive *kept* POIs this only bounds the regression by
`2·tol`, not by `tol` as the spec claims. -/

lemma filterProgressiveAux_sublist (end_lat end_lon tol : ℝ) :
    ∀ (l : List PointOfInterest) (current : ℝ),
      List.Sublist (filterProgressiveAux end_lat end_lon tol current l) l := by
  intro l
  induction l with
  | nil => intro current; simp [filterProgressiveAux]
  | cons p rest ih =>
    intro current
    rw [filterProgressiveAux]
    split
    · exact (ih _).cons₂ p
    · exact (ih _).cons p

lemma filterProgressiveAux_head (end_lat end_lon tol : ℝ) :
    ∀ (l : List PointOfInterest) (current : ℝ) (b : PointOfInterest),
      (filterProgressiveAux end_lat end_lon tol current l).head? = some b →
      distance_km b.lat b.lon end_lat end_lon ≤ current + tol := by
  intro l
  induction l with
  | nil => intro current b hb; simp [filterProgressiveAux] at hb
  | cons p rest ih =>
    intro current b hb
    rw [filterProgressiveAux] at hb
    split at hb
    · rw [List.head?_cons] at hb
      obtain rfl := Option.some.inj hb
      assumption
    · exact ih _ _ hb

lemma filterProgressiveAux_chain (end_lat end_lon tol : ℝ) :
    ∀ (l : List PointOfInterest) (current : ℝ),
      List.Chain'
        (fun a b => distance_km b.lat b.lon end_lat end_lon ≤
          distance_km a.lat a.lon end_lat end_lon + 2 * tol)
        (filterProgressiveAux end_lat end_lon tol current l) := by
  intro l
  induction l with
  | nil => intro current; simp [filterProgressiveAux]
  | cons p rest ih =>
    intro current
    rw [filterProgressiveAux]
    split
    · rw [List.chain'_cons']
      refine ⟨?_, ih _⟩
      intro b hb
      have hhead := filterProgressiveAux_head end_lat end_lon tol rest _ b hb
      have hmin : min current (distance_km p.lat p.lon end_lat end_lon + tol) ≤
          distance_km p.lat p.lon end_lat end_lon + tol := min_le_right _ _
      linarith
    · exact ih _

lemma filter_progressive_pois_chain (pois : List PointOfInterest)
    (start_lat start_lon end_lat end_lon tol : ℝ) :
    List.Chain'
      (fun a b => distance_km b.lat b.lon end_lat end_lon ≤
        distance_km a.lat a.lon end_lat end_lon + 2 * tol)
      (filter_progressive_pois pois start_lat start_lon end_lat end_lon tol) := by
  unfold filter_progressive_pois
  cases pois with
  | nil => simp
  | cons p rest => exact filterProgressiveAux_chain end_lat end_lon tol _ _

lemma discover_ok_elim {all_pois : List PointOfInterest}
    {slat slon elat elon : ℝ} {mp : ℤ} {tol : ℝ} {prioritize : Bool}
    {l : List PointOfInterest}
    (hok : discover_pois_along_route all_pois slat slon elat elon mp tol
      prioritize = .ok l) :
    ∃ selected, optimize_poi_selection
        (if prioritize then
          prioritizeScenic (discoverProgressive all_pois slat slon elat elon tol)
        else discoverProgressive all_pois slat slon elat elon tol) mp =
        .ok selected ∧
      l = filter_progressive_pois selected slat slon elat elon tol := by
  simp only [discover_pois_along_route] at hok
  cases h : optimize_poi_selection
      (if prioritize = true then
        prioritizeScenic (discoverProgressive all_pois slat slon elat elon tol)
      else discoverProgressive all_pois slat slon elat elon tol) mp with
  | error e =>
    rw [h] at hok
    exact absurd hok (by simp)
  | ok selected =>
    rw [h] at hok
    refine ⟨selected, rfl, ?_⟩
    have hok2 : Except.ok (ε := String)
        (filter_progressive_pois selected slat slon elat elon tol) =
        Except.ok l := hok
    exact (Except.ok.inj hok2).symm

/-- C1 amended: for consecutive waypoints returned by
`discover_pois_along_route` (whose last step re-applies the progressive
filter), the distance to the destination grows by at most `2·tolerance`
from one waypoint to the next. -/
theorem c1_amended_progressive_two_tol (all_pois : List PointOfInterest)
    (start_lat start_lon end_lat end_lon : ℝ) (max_pois : ℤ) (tol : ℝ)
    (prioritize : Bool) (l : List PointOfInterest)
    (hok : discover_pois_along_route all_pois start_lat start_lon end_lat
      end_lon max_pois tol prioritize = .ok l) :
    List.Chain'
      (fun a b => distance_km b.lat b.lon end_lat end_lon ≤
        distance_km a.lat a.lon end_lat end_lon + 2 * tol) l := by
  obtain ⟨selected, -, rfl⟩ := discover_ok_elim hok
  exact filter_progressive_pois_chain _ _ _ _ _ _

/-- Witness for the amended C1 (empty pool: the empty chain). -/
theorem c1_amended_progressive_two_tol_witness :
    discover_pois_along_route [] 0 0 0 1 3 1 true = .ok [] ∧
    List.Chain'
      (fun a b => distance_km b.lat b.lon 0 1 ≤
        distance_km a.lat a.lon 0 1 + 2 * 1) ([] : List PointOfInterest) := by
  have heval : discover_pois_along_route [] 0 0 0 1 3 1 true = .ok [] := by
    unfold discover_pois_along_route discoverProgressive deduplicate_pois
      filter_progressive_pois sortByPosition prioritizeScenic
    simp only [List.map_nil, List.insertionSort, List.filter_nil,
      List.append_nil, ite_self]
    rw [optimize_poi_selection_nil]
  exact ⟨heval, c1_amended_progressive_two_tol [] 0 0 0 1 3 1 true [] heval⟩

/-! ### C1 counterexample: consecutive regression between `tol` and `2·tol`

Route start (0°, 0°) → end (0°, 100°), tolerance `KM` (≈ 111.19 km, one
degree of arc).  POI `pC1` sits on the equator at longitude 50°
(50·KM from the destination); POI `qC1` sits on the destination meridian at
latitude 51.5° (51.5·KM from the destination) with projection parameter 1.
Both survive every stage, the final list is `[pC1, qC1]`, and the second
waypoint regresses by 1.5·KM > tol = KM. -/

noncomputable def pC1 : PointOfInterest :=
  ⟨"P", 0, 50, "viewpoint", "osm", [], none, none, none⟩

noncomputable def qC1 : PointOfInterest :=
  ⟨"Q2", 51.5, 100, "viewpoint", "osm", [], none, none, none⟩

lemma cos_radians50_gt : Real.cos (radians 50) > 0.61 := by
  rw [show radians 50 = 5 * Real.pi / 18 by rw [radians]; ring]
  have hxlt : 5 * Real.pi / 18 < 0.875 := by nlinarith [Real.pi_lt_d2]
  have hx0 : (0 : ℝ) ≤ 5 * Real.pi / 18 := by positivity
  have hsq : (5 * Real.pi / 18) ^ 2 < 0.765625 := by nlinarith
  have hle := Real.one_sub_sq_div_two_le_cos (x := 5 * Real.pi / 18)
  nlinarith

lemma point_to_line_t_mem_unit (px py x1 y1 x2 y2 : ℝ) :
    0 ≤ (point_to_line_distance_km px py x1 y1 x2 y2).2 ∧
    (point_to_line_distance_km px py x1 y1 x2 y2).2 ≤ 1 := by
  dsimp only [point_to_line_distance_km]
  split
  · norm_num
  · exact ⟨le_max_left _ _, max_le (by norm_num) (min_le_left _ _)⟩

/-- The projection parameter of any point on the destination meridian of
the (0,0) → (0,100) corridor is exactly 1 (the latitude delta contributes
nothing, because `dx = 0`). -/
lemma t_on_dest_meridian (px : ℝ) :
    (point_to_line_distance_km px 100 0 0 0 100).2 = 1 := by
  have hc := cos_radians50_gt
  unfold point_to_line_distance_km
  rw [show ((0 : ℝ) + 100) / 2 = 50 by norm_num]
  rw [if_neg (by nlinarith)]
  show max 0 (min 1 _) = 1
  rw [show ((px - 0) * 111.0 * ((0 - 0) * 111.0) +
      (100 - 0) * 111.0 * Real.cos (radians 50) *
        ((100 - 0) * 111.0 * Real.cos (radians 50))) /
      ((0 - 0) * 111.0 * ((0 - 0) * 111.0) +
      (100 - 0) * 111.0 * Real.cos (radians 50) *
        ((100 - 0) * 111.0 * Real.cos (radians 50))) = 1 by
    rw [div_eq_one_iff_eq (by nlinarith)]
    ring]
  norm_num

lemma annotatePoi_lat (slat slon elat elon : ℝ) (p : PointOfInterest) :
    (annotatePoi slat slon elat elon p).lat = p.lat := rfl

lemma annotatePoi_lon (slat slon elat elon : ℝ) (p : PointOfInterest) :
    (annotatePoi slat slon elat elon p).lon = p.lon := rfl

lemma annotatePoi_score (slat slon elat elon : ℝ) (p : PointOfInterest) :
    (annotatePoi slat slon elat elon p).score = p.score := rfl

lemma posOr0_annotate (slat slon elat elon : ℝ) (p : PointOfInterest) :
    posOr0 (annotatePoi slat slon elat elon p) =
      (point_to_line_distance_km p.lat p.lon slat slon elat elon).2 := rfl

lemma c1_dist_p :
    distance_km (annotatePoi 0 0 0 100 pC1).lat
      (annotatePoi 0 0 0 100 pC1).lon 0 100 = KM * 50 := by
  rw [annotatePoi_lat, annotatePoi_lon]
  show distance_km 0 50 0 100 = KM * 50
  rw [distance_km_equator 50 100 (by rw [abs_lt]; constructor <;> norm_num)]
  rw [abs_of_nonneg (by norm_num : (0 : ℝ) ≤ 100 - 50)]
  norm_num

lemma c1_dist_q :
    distance_km (annotatePoi 0 0 0 100 qC1).lat
      (annotatePoi 0 0 0 100 qC1).lon 0 100 = KM * 51.5 := by
  rw [annotatePoi_lat, annotatePoi_lon]
  show distance_km 51.5 100 0 100 = KM * 51.5
  rw [distance_km_same_lon 51.5 0 100 (by rw [abs_lt]; constructor <;> norm_num)]
  rw [show |(0 : ℝ) - 51.5| = 51.5 by
    rw [abs_sub_comm, abs_of_nonneg (by norm_num : (0 : ℝ) ≤ 51.5 - 0)]
    norm_num]

lemma c1_dedup : deduplicate_pois [pC1, qC1] 100 = [pC1, qC1] := by
  have hpa : pyRound (pC1.lat / (100 / 111000.0)) = 0 := by
    rw [show pC1.lat / (100 / 111000.0) = ((0 : ℤ) : ℝ) by norm_num [pC1]]
    exact pyRound_intCast 0
  have hqa : pyRound (qC1.lat / (100 / 111000.0)) = 57165 := by
    rw [show qC1.lat / (100 / 111000.0) = ((57165 : ℤ) : ℝ) by norm_num [qC1]]
    exact pyRound_intCast 57165
  simp only [deduplicate_pois, dedupAux]
  rw [if_neg (by simp)]
  rw [if_neg ?noteq]
  case noteq =>
    simp only [List.mem_singleton, Prod.mk.injEq, not_and]
    intro h1
    rw [hqa, hpa] at h1
    exact absurd h1 (by decide)

lemma c1_sort :
    sortByPosition [annotatePoi 0 0 0 100 pC1, annotatePoi 0 0 0 100 qC1] =
      [annotatePoi 0 0 0 100 pC1, annotatePoi 0 0 0 100 qC1] := by
  unfold sortByPosition
  simp only [List.insertionSort, List.orderedInsert]
  rw [if_pos]
  rw [posOr0_annotate, posOr0_annotate]
  rw [show qC1.lat = 51.5 from rfl, show qC1.lon = 100 from rfl,
    t_on_dest_meridian]
  exact (point_to_line_t_mem_unit _ _ _ _ _ _).2

lemma c1_filter :
    filter_progressive_pois
      [annotatePoi 0 0 0 100 pC1, annotatePoi 0 0 0 100 qC1] 0 0 0 100 KM =
      [annotatePoi 0 0 0 100 pC1, annotatePoi 0 0 0 100 qC1] := by
  have hkm := KM_pos
  have hd0 : distance_km 0 0 0 100 = KM * 100 := by
    rw [distance_km_equator 0 100 (by rw [abs_lt]; constructor <;> norm_num)]
    rw [abs_of_nonneg (by norm_num : (0 : ℝ) ≤ 100 - 0)]
    norm_num
  show filterProgressiveAux 0 100 KM (distance_km 0 0 0 100)
    [annotatePoi 0 0 0 100 pC1, annotatePoi 0 0 0 100 qC1] = _
  simp only [filterProgressiveAux]
  rw [c1_dist_p, c1_dist_q, hd0]
  rw [if_pos (by nlinarith)]
  rw [if_pos ?cond]
  case cond =>
    have hmin : min (KM * 100) (KM * 50 + KM) = KM * 50 + KM :=
      min_eq_right (by nlinarith)
    rw [hmin]
    nlinarith

lemma c1_eval :
    discover_pois_along_route [pC1, qC1] 0 0 0 100 5 KM true =
      .ok [annotatePoi 0 0 0 100 pC1, annotatePoi 0 0 0 100 qC1] := by
  have hprog : discoverProgressive [pC1, qC1] 0 0 0 100 KM =
      [annotatePoi 0 0 0 100 pC1, annotatePoi 0 0 0 100 qC1] := by
    unfold discoverProgressive
    rw [c1_dedup]
    simp only [List.map_cons, List.map_nil]
    rw [c1_sort, c1_filter]
  have hprior : prioritizeScenic
      [annotatePoi 0 0 0 100 pC1, annotatePoi 0 0 0 100 qC1] =
      [annotatePoi 0 0 0 100 pC1, annotatePoi 0 0 0 100 qC1] := by
    have hps : (annotatePoi 0 0 0 100 pC1).score.isSome = false := rfl
    have hqs : (annotatePoi 0 0 0 100 qC1).score.isSome = false := rfl
    have hpn : (annotatePoi 0 0 0 100 pC1).score.isNone = true := rfl
    have hqn : (annotatePoi 0 0 0 100 qC1).score.isNone = true := rfl
    simp only [prioritizeScenic, List.filter_cons, List.filter_nil, hps, hqs,
      hpn, hqn]
    simp [List.insertionSort]
  have hopt : optimize_poi_selection
      [annotatePoi 0 0 0 100 pC1, annotatePoi 0 0 0 100 qC1] 5 =
      .ok [annotatePoi 0 0 0 100 pC1, annotatePoi 0 0 0 100 qC1] := by
    unfold optimize_poi_selection
    rw [if_pos (by norm_num)]
  simp only [discover_pois_along_route]
  rw [if_pos trivial, hprog, hprior, hopt]
  show Except.ok (filter_progressive_pois
    [annotatePoi 0 0 0 100 pC1, annotatePoi 0 0 0 100 qC1] 0 0 0 100 KM) = _
  rw [c1_filter]

/-- Counterexample to C1 as stated: at the concrete route
(0,0) → (0,100) with tolerance `KM` and pool `[pC1, qC1]`, the selector
returns `[pC1, qC1]` whose second waypoint is 1.5·KM farther from the
destination than the first — more than the tolerance KM. -/
theorem c1_counterexample :
    ¬ ∀ l, discover_pois_along_route [pC1, qC1] 0 0 0 100 5 KM true = .ok l →
      List.Chain'
        (fun a b => distance_km b.lat b.lon 0 100 ≤
          distance_km a.lat a.lon 0 100 + KM) l := by
  intro h
  have hchain := h _ c1_eval
  rw [List.chain'_cons] at hchain
  have hR := hchain.1
  rw [c1_dist_p, c1_dist_q] at hR
  nlinarith [KM_pos]

/-! ## C5: final position ordering

When the progressive-filtered pool does not exceed `maxPois`,
`_optimize_poi_selection` returns it unchanged (`if len(pois) <= max_count:
return pois`) without the final position re-sort, so the scored-first
partition order survives to the final output. -/

noncomputable def aC5 : PointOfInterest :=
  ⟨"A", 48.6, 100, "viewpoint", "osm", [], some 1, none, none⟩

noncomputable def bC5 : PointOfInterest :=
  ⟨"B", 0, 51, "viewpoint", "osm", [], some 0.5, none, none⟩

lemma posKey999_annotate (slat slon elat elon : ℝ) (p : PointOfInterest) :
    posKey999 (annotatePoi slat slon elat elon p) =
      (point_to_line_distance_km p.lat p.lon slat slon elat elon).2 := rfl

/-- The projection parameter of the equator point at longitude 51 is
strictly below 1. -/
lemma c5_tb_lt : (point_to_line_distance_km 0 51 0 0 0 100).2 < 1 := by
  have hc := cos_radians50_gt
  have hcos255 : Real.cos (radians 25.5) ≤ 1 := Real.cos_le_one _
  unfold point_to_line_distance_km
  rw [show ((0 : ℝ) + 100) / 2 = 50 by norm_num,
    show ((0 : ℝ) + 51) / 2 = 25.5 by norm_num]
  rw [if_neg (by nlinarith)]
  show max 0 (min 1 _) < 1
  apply max_lt (by norm_num)
  apply lt_of_le_of_lt (min_le_right _ _)
  rw [div_lt_one (by nlinarith)]
  nlinarith

lemma c5_dist_a :
    distance_km (annotatePoi 0 0 0 100 aC5).lat
      (annotatePoi 0 0 0 100 aC5).lon 0 100 = KM * 48.6 := by
  rw [annotatePoi_lat, annotatePoi_lon]
  show distance_km 48.6 100 0 100 = KM * 48.6
  rw [distance_km_same_lon 48.6 0 100 (by rw [abs_lt]; constructor <;> norm_num)]
  rw [show |(0 : ℝ) - 48.6| = 48.6 by
    rw [abs_sub_comm, abs_of_nonneg (by norm_num : (0 : ℝ) ≤ 48.6 - 0)]
    norm_num]

lemma c5_dist_b :
    distance_km (annotatePoi 0 0 0 100 bC5).lat
      (annotatePoi 0 0 0 100 bC5).lon 0 100 = KM * 49 := by
  rw [annotatePoi_lat, annotatePoi_lon]
  show distance_km 0 51 0 100 = KM * 49
  rw [distance_km_equator 51 100 (by rw [abs_lt]; constructor <;> norm_num)]
  rw [abs_of_nonneg (by norm_num : (0 : ℝ) ≤ 100 - 51)]
  norm_num

lemma c5_dedup : deduplicate_pois [aC5, bC5] 100 = [aC5, bC5] := by
  have hpa : pyRound (aC5.lat / (100 / 111000.0)) = 53946 := by
    rw [show aC5.lat / (100 / 111000.0) = ((53946 : ℤ) : ℝ) by norm_num [aC5]]
    exact pyRound_intCast 53946
  have hqa : pyRound (bC5.lat / (100 / 111000.0)) = 0 := by
    rw [show bC5.lat / (100 / 111000.0) = ((0 : ℤ) : ℝ) by norm_num [bC5]]
    exact pyRound_intCast 0
  simp only [deduplicate_pois, dedupAux]
  rw [if_neg (by simp)]
  rw [if_neg ?noteq]
  case noteq =>
    simp only [List.mem_singleton, Prod.mk.injEq, not_and]
    intro h1
    rw [hqa, hpa] at h1
    exact absurd h1 (by decide)

lemma c5_sort :
    sortByPosition [annotatePoi 0 0 0 100 aC5, annotatePoi 0 0 0 100 bC5] =
      [annotatePoi 0 0 0 100 bC5, annotatePoi 0 0 0 100 aC5] := by
  unfold sortByPosition
  simp only [List.insertionSort, List.orderedInsert]
  rw [if_neg]
  rw [posOr0_annotate, posOr0_annotate]
  rw [show aC5.lat = 48.6 from rfl, show aC5.lon = 100 from rfl,
    show bC5.lat = 0 from rfl, show bC5.lon = 51 from rfl,
    t_on_dest_meridian]
  exact not_le_of_lt c5_tb_lt

lemma c5_filter1 :
    filter_progressive_pois
      [annotatePoi 0 0 0 100 bC5, annotatePoi 0 0 0 100 aC5] 0 0 0 100 KM =
      [annotatePoi 0 0 0 100 bC5, annotatePoi 0 0 0 100 aC5] := by
  have hkm := KM_pos
  have hd0 : distance_km 0 0 0 100 = KM * 100 := by
    rw [distance_km_equator 0 100 (by rw [abs_lt]; constructor <;> norm_num)]
    rw [abs_of_nonneg (by norm_num : (0 : ℝ) ≤ 100 - 0)]
    norm_num
  show filterProgressiveAux 0 100 KM (distance_km 0 0 0 100)
    [annotatePoi 0 0 0 100 bC5, annotatePoi 0 0 0 100 aC5] = _
  simp only [filterProgressiveAux]
  rw [c5_dist_a, c5_dist_b, hd0]
  rw [if_pos (by nlinarith)]
  rw [if_pos ?cond]
  case cond =>
    have hmin : min (KM * 100) (KM * 49 + KM) = KM * 49 + KM :=
      min_eq_right (by nlinarith)
    rw [hmin]
    nlinarith

lemma c5_filter2 :
    filter_progressive_pois
      [annotatePoi 0 0 0 100 aC5, annotatePoi 0 0 0 100 bC5] 0 0 0 100 KM =
      [annotatePoi 0 0 0 100 aC5, annotatePoi 0 0 0 100 bC5] := by
  have hkm := KM_pos
  have hd0 : distance_km 0 0 0 100 = KM * 100 := by
    rw [distance_km_equator 0 100 (by rw [abs_lt]; constructor <;> norm_num)]
    rw [abs_of_nonneg (by norm_num : (0 : ℝ) ≤ 100 - 0)]
    norm_num
  show filterProgressiveAux 0 100 KM (distance_km 0 0 0 100)
    [annotatePoi 0 0 0 100 aC5, annotatePoi 0 0 0 100 bC5] = _
  simp only [filterProgressiveAux]
  rw [c5_dist_a, c5_dist_b, hd0]
  rw [if_pos (by nlinarith)]
  rw [if_pos ?cond]
  case cond =>
    have hmin : min (KM * 100) (KM * 48.6 + KM) = KM * 48.6 + KM :=
      min_eq_right (by nlinarith)
    rw [hmin]
    nlinarith

lemma c5_eval :
    discover_pois_along_route [aC5, bC5] 0 0 0 100 5 KM true =
      .ok [annotatePoi 0 0 0 100 aC5, annotatePoi 0 0 0 100 bC5] := by
  have hprog : discoverProgressive [aC5, bC5] 0 0 0 100 KM =
      [annotatePoi 0 0 0 100 bC5, annotatePoi 0 0 0 100 aC5] := by
    unfold discoverProgressive
    rw [c5_dedup]
    simp only [List.map_cons, List.map_nil]
    rw [c5_sort, c5_filter1]
  have hprior : prioritizeScenic
      [annotatePoi 0 0 0 100 bC5, annotatePoi 0 0 0 100 aC5] =
      [annotatePoi 0 0 0 100 aC5, annotatePoi 0 0 0 100 bC5] := by
    have hbs : (annotatePoi 0 0 0 100 bC5).score.isSome = true := rfl
    have has : (annotatePoi 0 0 0 100 aC5).score.isSome = true := rfl
    have hbn : (annotatePoi 0 0 0 100 bC5).score.isNone = false := rfl
    have han : (annotatePoi 0 0 0 100 aC5).score.isNone = false := rfl
    simp only [prioritizeScenic, List.filter_cons, List.filter_nil, hbs, has,
      hbn, han]
    simp only [if_true, if_false, List.insertionSort, List.orderedInsert,
      List.append_nil]
    rw [if_neg]
    · rfl
    · rw [show (annotatePoi 0 0 0 100 bC5).score = some 0.5 from rfl,
        show (annotatePoi 0 0 0 100 aC5).score = some 1 from rfl]
      norm_num [pyOr0]
  have hopt : optimize_poi_selection
      [annotatePoi 0 0 0 100 aC5, annotatePoi 0 0 0 100 bC5] 5 =
      .ok [annotatePoi 0 0 0 100 aC5, annotatePoi 0 0 0 100 bC5] := by
    unfold optimize_poi_selection
    rw [if_pos (by norm_num)]
  simp only [discover_pois_along_route]
  rw [if_pos trivial, hprog, hprior, hopt]
  show Except.ok (filter_progressive_pois
    [annotatePoi 0 0 0 100 aC5, annotatePoi 0 0 0 100 bC5] 0 0 0 100 KM) = _
  rw [c5_filter2]

/-- Counterexample to C5 as stated: at route (0,0) → (0,100) with the pool
`[aC5, bC5]` (both progressively valid; `aC5` scored 1 at position 1,
`bC5` scored 0.5 at position < 1), the selector returns `[aC5, bC5]`,
which is **not** sorted by `position_along_route` ascending: the scored
partition reordered the list and the small-pool early return of
`_optimize_poi_selection` skips the final position re-sort. -/
theorem c5_counterexample :
    ¬ ∀ l, discover_pois_along_route [aC5, bC5] 0 0 0 100 5 KM true = .ok l →
      l.Sorted posKeyLe := by
  intro h
  have hs := h _ c5_eval
  rw [List.sorted_cons] at hs
  have hab := hs.1 (annotatePoi 0 0 0 100 bC5) (by simp)
  unfold posKeyLe at hab
  rw [posKey999_annotate, posKey999_annotate] at hab
  rw [show aC5.lat = 48.6 from rfl, show aC5.lon = 100 from rfl,
    show bC5.lat = 0 from rfl, show bC5.lon = 51 from rfl,
    t_on_dest_meridian] at hab
  exact absurd hab (not_le_of_lt c5_tb_lt)

lemma prioritizeScenic_length (l : List PointOfInterest) :
    (prioritizeScenic l).length = l.length := by
  unfold prioritizeScenic
  rw [List.length_append, List.length_insertionSort]
  have hne : ∀ p : PointOfInterest, p.score.isNone = !(p.score.isSome) := by
    intro p
    cases p.score <;> rfl
  rw [List.filter_congr (fun x _ => hne x)]
  rw [← List.length_append]
  exact (List.filter_append_perm _ l).length_eq

lemma pySliceTo_sorted {α : Type} {r : α → α → Prop} {l : List α}
    (h : List.Sorted r l) (n : ℤ) : List.Sorted r (pySliceTo l n) := by
  unfold pySliceTo
  split
  · exact h.sublist (List.take_sublist _ _)
  · exact h.sublist (List.take_sublist _ _)

lemma mem_pySliceTo {α : Type} {l : List α} {n : ℤ} {x : α}
    (h : x ∈ pySliceTo l n) : x ∈ l := by
  unfold pySliceTo at h
  split at h
  · exact List.mem_of_mem_take h
  · exact List.mem_of_mem_take h

lemma filter_progressive_pois_sublist (pois : List PointOfInterest)
    (slat slon elat elon tol : ℝ) :
    List.Sublist
      (filter_progressive_pois pois slat slon elat elon tol) pois := by
  unfold filter_progressive_pois
  cases pois with
  | nil => simp
  | cons p rest => exact filterProgressiveAux_sublist elat elon tol _ _

/-- C5 amended: the final waypoint list is sorted by `position_along_route`
(with `None` keyed 999) whenever the progressive-filtered pool is larger
than `maxPois`, because only then does `_optimize_poi_selection` reach its
closing position re-sort; when the pool is `≤ maxPois` the early return
`if len(pois) <= max_count: return pois` skips the re-sort and the
scored-before-unscored partition order can survive (see the
counterexample). -/
theorem c5_amended_sorted_when_pool_exceeds (all_pois : List PointOfInterest)
    (slat slon elat elon : ℝ) (mp : ℤ) (tol : ℝ) (prioritize : Bool)
    (l : List PointOfInterest)
    (hlen : mp <
      ((discoverProgressive all_pois slat slon elat elon tol).length : ℤ))
    (hok : discover_pois_along_route all_pois slat slon elat elon mp tol
      prioritize = .ok l) :
    l.Sorted posKeyLe := by
  obtain ⟨selected, hopt, rfl⟩ := discover_ok_elim hok
  have hsub := filter_progressive_pois_sublist selected slat slon elat elon tol
  suffices hs : List.Sorted posKeyLe selected from hs.sublist hsub
  have hlen2 : ¬((((if prioritize then
      prioritizeScenic (discoverProgressive all_pois slat slon elat elon tol)
    else discoverProgressive all_pois slat slon elat elon tol)).length : ℤ)
      ≤ mp) := by
    cases prioritize
    · simp only [Bool.false_eq_true, if_false]
      omega
    · simp only [if_true, prioritizeScenic_length]
      omega
  unfold optimize_poi_selection at hopt
  rw [if_neg hlen2] at hopt
  cases hwp : (if prioritize then
      prioritizeScenic (discoverProgressive all_pois slat slon elat elon tol)
    else discoverProgressive all_pois slat slon elat elon tol).filter
      (fun p => p.position_along_route.isSome) with
  | nil =>
    rw [hwp] at hopt
    have hok2 : Except.ok (ε := String)
        (pySliceTo (List.insertionSort latLonKeyLe
          (if prioritize then
            prioritizeScenic (discoverProgressive all_pois slat slon elat
              elon tol)
          else discoverProgressive all_pois slat slon elat elon tol)) mp) =
        Except.ok selected := hopt
    have hsel := Except.ok.inj hok2
    rw [← hsel]
    have hall : ∀ p ∈ (if prioritize then
        prioritizeScenic (discoverProgressive all_pois slat slon elat elon tol)
      else discoverProgressive all_pois slat slon elat elon tol),
        posKey999 p = 999 := by
      intro p hp
      have hnone := List.filter_eq_nil_iff.mp hwp p hp
      unfold posKey999
      cases hpos : p.position_along_route with
      | none => rfl
      | some t =>
        rw [hpos] at hnone
        exact absurd rfl hnone
    apply List.pairwise_of_forall_mem_list
    intro a ha b hb
    have ha2 := List.mem_insertionSort latLonKeyLe |>.mp (mem_pySliceTo ha)
    have hb2 := List.mem_insertionSort latLonKeyLe |>.mp (mem_pySliceTo hb)
    unfold posKeyLe
    rw [hall a ha2, hall b hb2]
  | cons q qs =>
    rw [hwp] at hopt
    by_cases hmp0 : mp = 0
    · subst hmp0
      simp at hopt
    · cases hassign : assignSegments mp (q :: qs)
          (List.replicate mp.toNat []) with
      | error e =>
        simp [hmp0, hassign] at hopt
      | ok segments =>
        simp only [hassign, if_neg hmp0] at hopt
        obtain ⟨x, hx⟩ : ∃ x, Except.ok (ε := String)
            (pySliceTo (List.insertionSort posKeyLe x) mp) =
            Except.ok selected := ⟨_, hopt⟩
        rw [← Except.ok.inj hx]
        exact pySliceTo_sorted (List.sorted_insertionSort posKeyLe x) mp

/-! ### Concrete main-path evaluation of `_optimize_poi_selection`

Pool for the C5-amended and C4 witnesses: two scored POIs on the
destination meridian of the corridor (0,0) → (0,100), `maxPois = 1`. -/

noncomputable def bW5 : PointOfInterest :=
  ⟨"B5", 48, 100, "viewpoint", "osm", [], some 0, none, none⟩

noncomputable def cW5 : PointOfInterest :=
  ⟨"C5", 49, 100, "viewpoint", "osm", [], some 1, none, none⟩

/-- `bW5` after corridor annotation. -/
noncomputable def blW : PointOfInterest :=
  ⟨"B5", 48, 100, "viewpoint", "osm", [], some 0, some (KM * 48), some 1⟩

/-- `cW5` after corridor annotation. -/
noncomputable def clW : PointOfInterest :=
  ⟨"C5", 49, 100, "viewpoint", "osm", [], some 1, some (KM * 49), some 1⟩

lemma w5_dist_b : distance_km 48 100 0 100 = KM * 48 := by
  rw [distance_km_same_lon 48 0 100 (by rw [abs_lt]; constructor <;> norm_num)]
  rw [show |(0 : ℝ) - 48| = 48 by
    rw [abs_sub_comm, abs_of_nonneg (by norm_num : (0 : ℝ) ≤ 48 - 0)]
    norm_num]

lemma w5_dist_c : distance_km 49 100 0 100 = KM * 49 := by
  rw [distance_km_same_lon 49 0 100 (by rw [abs_lt]; constructor <;> norm_num)]
  rw [show |(0 : ℝ) - 49| = 49 by
    rw [abs_sub_comm, abs_of_nonneg (by norm_num : (0 : ℝ) ≤ 49 - 0)]
    norm_num]

lemma w5_annotate_b : annotatePoi 0 0 0 100 bW5 = blW := by
  show (⟨"B5", 48, 100, "viewpoint", "osm", [], some 0,
    some (distance_km 48 100 0 100),
    some ((point_to_line_distance_km 48 100 0 0 0 100).2)⟩ : PointOfInterest) =
    blW
  rw [w5_dist_b, t_on_dest_meridian]
  rfl

lemma w5_annotate_c : annotatePoi 0 0 0 100 cW5 = clW := by
  show (⟨"C5", 49, 100, "viewpoint", "osm", [], some 1,
    some (distance_km 49 100 0 100),
    some ((point_to_line_distance_km 49 100 0 0 0 100).2)⟩ : PointOfInterest) =
    clW
  rw [w5_dist_c, t_on_dest_meridian]
  rfl

lemma blW_ne_clW : blW ≠ clW := by
  intro h
  have hn := congrArg PointOfInterest.name h
  simp [blW, clW] at hn

lemma segIdx_one_of_pos_one (p : PointOfInterest)
    (hp : p.position_along_route = some 1) : segIdx 1 p = 0 := by
  unfold segIdx pyOr0 pyTrunc
  rw [hp]
  norm_num

lemma pyListGet_zero {α : Type} (x : α) (xs : List α) :
    pyListGet (x :: xs) 0 = .ok x := by
  unfold pyListGet
  rw [dif_pos (⟨le_refl 0, by simp⟩ :
    (0 : ℤ) ≤ 0 ∧ (0 : ℤ).toNat < (x :: xs).length)]
  rfl

lemma pyListSet_zero {α : Type} (x v : α) (xs : List α) :
    pyListSet (x :: xs) 0 v = .ok (v :: xs) := by
  unfold pyListSet
  rw [if_pos (⟨le_refl 0, by simp⟩ :
    (0 : ℤ) ≤ 0 ∧ (0 : ℤ).toNat < (x :: xs).length)]
  rfl

lemma w5_assign :
    assignSegments 1 [clW, blW] [[]] = .ok [[clW, blW]] := by
  have hc : segIdx 1 clW = 0 := segIdx_one_of_pos_one _ rfl
  have hb : segIdx 1 blW = 0 := segIdx_one_of_pos_one _ rfl
  simp only [assignSegments, hc, hb, pyListGet_zero, pyListSet_zero,
    List.nil_append, List.cons_append]

lemma w5_optimize : optimize_poi_selection [clW, blW] 1 = .ok [clW] := by
  have hfs : List.filter (fun p => p.position_along_route.isSome)
      [clW, blW] = [clW, blW] := rfl
  have hfn : List.filter (fun p => p.position_along_route.isNone)
      [clW, blW] = ([] : List PointOfInterest) := rfl
  have hkey : segKeyLe clW blW := by
    unfold segKeyLe
    left
    norm_num [pyOr0, clW, blW]
  have hsort2 : List.insertionSort segKeyLe [clW, blW] = [clW, blW] := by
    simp only [List.insertionSort, List.orderedInsert]
    rw [if_pos hkey]
  have hfilter : List.filter (fun p => p ∉ [clW]) [clW, blW] = [blW] := by
    rw [List.filter_cons, List.filter_cons, List.filter_nil]
    rw [if_neg (by simp), if_pos (by simp [blW_ne_clW])]
  have hsortb : List.insertionSort segKeyLe [blW] = [blW] := rfl
  have hsortc : List.insertionSort posKeyLe [clW] = [clW] := rfl
  unfold optimize_poi_selection
  rw [if_neg (by norm_num)]
  simp only [hfs, hfn]
  rw [if_neg (by norm_num : ¬ (1 : ℤ) = 0)]
  rw [show List.replicate (1 : ℤ).toNat ([] : List PointOfInterest) = [[]]
    from rfl]
  rw [w5_assign]
  simp only [List.filterMap_cons, List.filterMap_nil, hsort2, List.head?_cons,
    hfilter, hsortb, hsortc]
  rw [if_neg (by simp)]
  simp [pySliceTo]

lemma w5_dedup : deduplicate_pois [bW5, cW5] 100 = [bW5, cW5] := by
  have hb : pyRound (bW5.lat / (100 / 111000.0)) = 53280 := by
    rw [show bW5.lat / (100 / 111000.0) = ((53280 : ℤ) : ℝ) by norm_num [bW5]]
    exact pyRound_intCast 53280
  have hc : pyRound (cW5.lat / (100 / 111000.0)) = 54390 := by
    rw [show cW5.lat / (100 / 111000.0) = ((54390 : ℤ) : ℝ) by norm_num [cW5]]
    exact pyRound_intCast 54390
  simp only [deduplicate_pois, dedupAux]
  rw [if_neg (by simp)]
  rw [if_neg ?noteq]
  case noteq =>
    simp only [List.mem_singleton, Prod.mk.injEq, not_and]
    intro h1
    rw [hc, hb] at h1
    exact absurd h1 (by decide)

lemma w5_sort : sortByPosition [blW, clW] = [blW, clW] := by
  unfold sortByPosition
  simp only [List.insertionSort, List.orderedInsert]
  rw [if_pos (by norm_num [posOr0, pyOr0, blW, clW])]

lemma w5_dist_b2 : distance_km blW.lat blW.lon 0 100 = KM * 48 := w5_dist_b

lemma w5_dist_c2 : distance_km clW.lat clW.lon 0 100 = KM * 49 := w5_dist_c

lemma w5_filter2 :
    filter_progressive_pois [blW, clW] 0 0 0 100 KM = [blW, clW] := by
  have hkm := KM_pos
  have hd0 : distance_km 0 0 0 100 = KM * 100 := by
    rw [distance_km_equator 0 100 (by rw [abs_lt]; constructor <;> norm_num)]
    rw [abs_of_nonneg (by norm_num : (0 : ℝ) ≤ 100 - 0)]
    norm_num
  show filterProgressiveAux 0 100 KM (distance_km 0 0 0 100) [blW, clW] = _
  simp only [filterProgressiveAux]
  rw [w5_dist_b2, w5_dist_c2, hd0]
  rw [if_pos (by nlinarith)]
  rw [if_pos ?cond]
  case cond =>
    have hmin : min (KM * 100) (KM * 48 + KM) = KM * 48 + KM :=
      min_eq_right (by nlinarith)
    rw [hmin]
    nlinarith

lemma w5_filter1 : filter_progressive_pois [clW] 0 0 0 100 KM = [clW] := by
  have hkm := KM_pos
  have hd0 : distance_km 0 0 0 100 = KM * 100 := by
    rw [distance_km_equator 0 100 (by rw [abs_lt]; constructor <;> norm_num)]
    rw [abs_of_nonneg (by norm_num : (0 : ℝ) ≤ 100 - 0)]
    norm_num
  show filterProgressiveAux 0 100 KM (distance_km 0 0 0 100) [clW] = _
  simp only [filterProgressiveAux]
  rw [w5_dist_c2, hd0]
  rw [if_pos (by nlinarith)]

lemma w5_prior : prioritizeScenic [blW, clW] = [clW, blW] := by
  have hfs2 : List.filter (fun p => p.score.isSome) [blW, clW] =
      [blW, clW] := rfl
  have hfn2 : List.filter (fun p => p.score.isNone) [blW, clW] =
      ([] : List PointOfInterest) := rfl
  simp only [prioritizeScenic, hfs2, hfn2, List.append_nil]
  simp only [List.insertionSort, List.orderedInsert]
  rw [if_neg (by norm_num [pyOr0, blW, clW])]

lemma w5_prog : discoverProgressive [bW5, cW5] 0 0 0 100 KM = [blW, clW] := by
  unfold discoverProgressive
  rw [w5_dedup]
  simp only [List.map_cons, List.map_nil, w5_annotate_b, w5_annotate_c]
  rw [w5_sort, w5_filter2]

lemma w5_heval :
    discover_pois_along_route [bW5, cW5] 0 0 0 100 1 KM true = .ok [clW] := by
  simp only [discover_pois_along_route]
  rw [if_pos trivial, w5_prog, w5_prior, w5_optimize]
  show Except.ok (filter_progressive_pois [clW] 0 0 0 100 KM) = _
  rw [w5_filter1]

/-! ### C4: segment-distributed selection -/

/-- The candidates of `_optimize_poi_selection`'s `i`-th position segment:
positioned POIs whose segment index is `i`. -/
noncomputable def posSegment (pois : List PointOfInterest) (n : ℤ) (i : ℕ) :
    List PointOfInterest :=
  (pois.filter (fun p => p.position_along_route.isSome)).filter
    (fun p => segIdx n p = (i : ℤ))

/-- The best candidate of segment `i`: the head of the segment sorted by
`(-(score or 0), position_along_route or 0)`. -/
noncomputable def segmentBest (pois : List PointOfInterest) (n : ℤ) (i : ℕ) :
    Option PointOfInterest :=
  (List.insertionSort segKeyLe (posSegment pois n i)).head?

lemma segKeyLe_refl (a : PointOfInterest) : segKeyLe a a := by
  unfold segKeyLe
  exact Or.inr ⟨rfl, le_refl _⟩

lemma segmentBest_spec (pois : List PointOfInterest) (n : ℤ) (i : ℕ)
    (b : PointOfInterest) (h : segmentBest pois n i = some b) :
    b ∈ posSegment pois n i ∧ ∀ x ∈ posSegment pois n i, segKeyLe b x := by
  unfold segmentBest at h
  have hsorted := List.sorted_insertionSort segKeyLe (posSegment pois n i)
  cases hs : List.insertionSort segKeyLe (posSegment pois n i) with
  | nil =>
    rw [hs] at h
    simp at h
  | cons y ys =>
    rw [hs] at h
    simp only [List.head?_cons, Option.some.injEq] at h
    subst h
    rw [hs] at hsorted
    constructor
    · have hy : y ∈ List.insertionSort segKeyLe (posSegment pois n i) := by
        rw [hs]
        exact List.mem_cons_self _ _
      exact (List.mem_insertionSort _).mp hy
    · intro x hx
      have hx2 : x ∈ y :: ys := by
        rw [← hs]
        exact (List.mem_insertionSort _).mpr hx
      rcases List.mem_cons.mp hx2 with rfl | hx3
      · exact segKeyLe_refl _
      · exact List.rel_of_sorted_cons hsorted x hx3

lemma segIdx_range (n : ℤ) (hn : 0 < n) (p : PointOfInterest) (t : ℝ)
    (hp : p.position_along_route = some t) (h0 : 0 ≤ t) :
    0 ≤ segIdx n p ∧ segIdx n p ≤ n - 1 := by
  have hn2 : (0 : ℝ) < (n : ℝ) := by exact_mod_cast hn
  unfold segIdx
  refine ⟨le_min ?_ (by omega), min_le_right _ _⟩
  unfold pyTrunc pyOr0
  rw [hp]
  simp only [Option.getD_some]
  rw [if_pos (div_nonneg h0 (by positivity))]
  exact Int.floor_nonneg.mpr (div_nonneg h0 (by positivity))

lemma pyListGet_of_lt {α : Type} (l : List α) (k : ℤ)
    (h1 : 0 ≤ k) (h2 : k.toNat < l.length) :
    pyListGet l k = .ok (l.get ⟨k.toNat, h2⟩) := by
  unfold pyListGet
  rw [dif_pos (⟨h1, h2⟩ : 0 ≤ k ∧ k.toNat < l.length)]

lemma pyListSet_of_lt {α : Type} (l : List α) (k : ℤ) (v : α)
    (h1 : 0 ≤ k) (h2 : k.toNat < l.length) :
    pyListSet l k v = .ok (l.set k.toNat v) := by
  unfold pyListSet
  rw [if_pos (⟨h1, h2⟩ : 0 ≤ k ∧ k.toNat < l.length)]

lemma pySliceTo_length {α : Type} (l : List α) (k : ℤ) (hk : 0 ≤ k) :
    (pySliceTo l k).length = min k.toNat l.length := by
  unfold pySliceTo
  rw [if_pos hk, List.length_take]

lemma pySliceTo_all {α : Type} (l : List α) (k : ℤ) (hk : 0 ≤ k)
    (h : l.length ≤ k.toNat) : pySliceTo l k = l := by
  unfold pySliceTo
  rw [if_pos hk]
  exact List.take_of_length_le h

/-- The segment-bucketing loop appends each positioned POI to its segment:
running it from `segs` succeeds when every segment index is in range, keeps
the number of segments, and extends segment `i` by exactly the POIs whose
segment index is `i`, in order. -/
lemma assignSegments_spec (n : ℤ) (pois : List PointOfInterest) :
    ∀ segs : List (List PointOfInterest),
    (∀ p ∈ pois, 0 ≤ segIdx n p ∧ (segIdx n p).toNat < segs.length) →
    ∃ segs2, assignSegments n pois segs = .ok segs2 ∧
      segs2.length = segs.length ∧
      ∀ i : ℕ, segs2[i]? = segs[i]?.map
        (fun s => s ++ pois.filter (fun p => segIdx n p = (i : ℤ))) := by
  induction pois with
  | nil =>
    intro segs _
    refine ⟨segs, rfl, rfl, ?_⟩
    intro i
    cases h : segs[i]? <;> simp
  | cons p rest ih =>
    intro segs h
    obtain ⟨h1, h2⟩ := h p (List.mem_cons_self _ _)
    have hget := pyListGet_of_lt segs (segIdx n p) h1 h2
    have hset := pyListSet_of_lt segs (segIdx n p)
      (segs.get ⟨(segIdx n p).toNat, h2⟩ ++ [p]) h1 h2
    obtain ⟨segs2, e1, e2, e3⟩ := ih
      (segs.set (segIdx n p).toNat (segs.get ⟨(segIdx n p).toNat, h2⟩ ++ [p]))
      (by
        intro x hx
        obtain ⟨g1, g2⟩ := h x (List.mem_cons_of_mem _ hx)
        rw [List.length_set]
        exact ⟨g1, g2⟩)
    refine ⟨segs2, ?_, ?_, ?_⟩
    · simp only [assignSegments, hget, hset]
      exact e1
    · rw [e2, List.length_set]
    · intro i
      rw [e3 i]
      by_cases hca : i = (segIdx n p).toNat
      · subst hca
        rw [List.getElem?_set_self', List.getElem?_eq_getElem h2]
        have hdp : decide (segIdx n p = ((segIdx n p).toNat : ℤ)) = true := by
          simp [Int.toNat_of_nonneg h1]
        simp [List.filter_cons, hdp, List.append_assoc]
        rw [if_pos h1]
      · rw [List.getElem?_set_ne (fun he => hca he.symm)]
        have hdp : decide (segIdx n p = (i : ℤ)) = false := by
          simp only [decide_eq_false_iff_not]
          intro he
          apply hca
          omega
        simp [List.filter_cons, hdp]

/-- C4: for `maxPois > 0`, a duplicate-free pool in which every candidate
has a `position_along_route` in [0,1], `_optimize_poi_selection` succeeds,
returns at most `maxPois` waypoints — exactly `maxPois` when at least
`maxPois` candidates exist — and the best candidate of every non-empty
`1/maxPois`-wide position segment (highest score, ties broken by smallest
position) is kept in the output. -/
theorem c4_segment_distribution (pois : List PointOfInterest) (mp : ℤ)
    (hmp : 0 < mp) (hnd : pois.Nodup)
    (hpos : ∀ p ∈ pois, ∃ t, p.position_along_route = some t ∧ 0 ≤ t ∧ t ≤ 1) :
    ∃ out, optimize_poi_selection pois mp = .ok out ∧
      (out.length : ℤ) ≤ mp ∧
      (mp ≤ (pois.length : ℤ) → (out.length : ℤ) = mp) ∧
      ∀ i : ℕ, ∀ b, segmentBest pois mp i = some b →
        b ∈ out ∧ b ∈ posSegment pois mp i ∧
          ∀ x ∈ posSegment pois mp i, segKeyLe b x := by
  by_cases hle : (pois.length : ℤ) ≤ mp
  · refine ⟨pois, ?_, hle, fun h2 => le_antisymm hle h2, ?_⟩
    · unfold optimize_poi_selection
      rw [if_pos hle]
    · intro i b hb
      obtain ⟨hbm, hmin⟩ := segmentBest_spec pois mp i b hb
      have hbm2 : b ∈ (pois.filter (fun p => p.position_along_route.isSome)).filter
          (fun p => segIdx mp p = (i : ℤ)) := hbm
      exact ⟨List.mem_of_mem_filter (List.mem_of_mem_filter hbm2), hbm, hmin⟩
  · push_neg at hle
    obtain ⟨q, qs, rfl⟩ : ∃ q qs, pois = q :: qs := by
      cases pois with
      | nil =>
        exfalso
        simp at hle
        omega
      | cons q qs => exact ⟨q, qs, rfl⟩
    have hwp : (q :: qs).filter (fun p => p.position_along_route.isSome) =
        q :: qs := by
      rw [List.filter_eq_self]
      intro a ha
      obtain ⟨t, h1, _, _⟩ := hpos a ha
      simp [h1]
    have hwn : (q :: qs).filter (fun p => p.position_along_route.isNone) =
        [] := by
      rw [List.filter_eq_nil_iff]
      intro a ha
      obtain ⟨t, h1, _, _⟩ := hpos a ha
      simp [h1]
    have hrange : ∀ p ∈ q :: qs, 0 ≤ segIdx mp p ∧
        (segIdx mp p).toNat <
          (List.replicate mp.toNat ([] : List PointOfInterest)).length := by
      intro p hp
      obtain ⟨t, h1, h2, _⟩ := hpos p hp
      obtain ⟨g1, g2⟩ := segIdx_range mp hmp p t h1 h2
      rw [List.length_replicate]
      exact ⟨g1, by omega⟩
    obtain ⟨segments, hassign, hslen, hscont⟩ :=
      assignSegments_spec mp (q :: qs) _ hrange
    rw [List.length_replicate] at hslen
    unfold optimize_poi_selection
    rw [if_neg (not_le.mpr hle)]
    simp only [hwp, hwn]
    rw [if_neg (show ¬ mp = 0 by omega)]
    rw [hassign]
    refine ⟨_, rfl, ?_⟩
    rw [if_neg (by simp)]
    set sel := segments.filterMap
      (fun seg => (List.insertionSort segKeyLe seg).head?) with hseldef
    set rem := (q :: qs).filter (fun p => p ∉ sel) with hremdef
    set sel2 := sel ++
      pySliceTo (List.insertionSort segKeyLe rem) (mp - sel.length)
      with hsel2def
    have hs_le : sel.length ≤ mp.toNat := by
      rw [hseldef]
      exact le_trans (List.length_filterMap_le _ _) (le_of_eq hslen)
    have hsplit2 : rem.length +
        ((q :: qs).filter (fun x => !decide (x ∉ sel))).length =
        (q :: qs).length := by
      have h1 := (List.filter_append_perm
        (fun p => decide (p ∉ sel)) (q :: qs)).length_eq
      rw [List.length_append] at h1
      rw [hremdef]
      exact h1
    have hsub_len : ((q :: qs).filter (fun x => !decide (x ∉ sel))).length ≤
        sel.length := by
      apply List.Subperm.length_le
      apply List.subperm_of_subset
      · exact List.Nodup.filter _ hnd
      · intro x hx
        have hx2 := List.of_mem_filter hx
        simp at hx2
        exact hx2
    have hslice : (pySliceTo (List.insertionSort segKeyLe rem)
        (mp - sel.length)).length =
        min (mp - (sel.length : ℤ)).toNat rem.length := by
      rw [pySliceTo_length _ _ (by omega)]
      rw [List.length_insertionSort]
    have hminle : (mp - (sel.length : ℤ)).toNat ≤ rem.length := by omega
    have hsel2len : sel2.length = mp.toNat := by
      rw [hsel2def, List.length_append, hslice, min_eq_left hminle]
      omega
    have hout_all : pySliceTo (List.insertionSort posKeyLe sel2) mp =
        List.insertionSort posKeyLe sel2 := by
      apply pySliceTo_all _ _ (by omega)
      exact le_of_eq (by rw [List.length_insertionSort, hsel2len])
    rw [hout_all]
    refine ⟨?_, fun _ => ?_, ?_⟩
    · rw [List.length_insertionSort, hsel2len]
      omega
    · rw [List.length_insertionSort, hsel2len]
      omega
    · intro i b hb
      obtain ⟨hbm, hmin⟩ := segmentBest_spec (q :: qs) mp i b hb
      refine ⟨?_, hbm, hmin⟩
      rw [List.mem_insertionSort]
      rw [hsel2def]
      apply List.mem_append_left
      by_cases hi : i < mp.toNat
      · have hrep : (List.replicate mp.toNat
            ([] : List PointOfInterest))[i]? = some [] := by
          rw [List.getElem?_eq_getElem (by simpa using hi)]
          simp [List.getElem_replicate]
        have hgi : segments[i]? =
            some ((q :: qs).filter (fun p => segIdx mp p = (i : ℤ))) := by
          rw [hscont i, hrep]
          simp
        rw [hseldef]
        apply List.mem_filterMap.mpr
        refine ⟨(q :: qs).filter (fun p => segIdx mp p = (i : ℤ)),
          List.getElem?_mem hgi, ?_⟩
        have hps : posSegment (q :: qs) mp i =
            (q :: qs).filter (fun p => segIdx mp p = (i : ℤ)) := by
          unfold posSegment
          rw [hwp]
        unfold segmentBest at hb
        rw [hps] at hb
        exact hb
      · exfalso
        have hps0 : posSegment (q :: qs) mp i = [] := by
          unfold posSegment
          rw [hwp, List.filter_eq_nil_iff]
          intro p hp
          obtain ⟨t, h1, h2, _⟩ := hpos p hp
          obtain ⟨g1, g2⟩ := segIdx_range mp hmp p t h1 h2
          simp only [decide_eq_true_eq]
          omega
        unfold segmentBest at hb
        rw [hps0] at hb
        simp at hb

/-- C5 amended witness: on the corridor (0,0) → (0,100) with pool
`[bW5, cW5]`, `maxPois = 1` and tolerance `KM`, the progressively
filtered pool has 2 > 1 candidates, the selector returns `[clW]`, and
that output is sorted by `position_along_route`. -/
theorem c5_amended_sorted_when_pool_exceeds_witness :
    (1 : ℤ) < ((discoverProgressive [bW5, cW5] 0 0 0 100 KM).length : ℤ) ∧
    discover_pois_along_route [bW5, cW5] 0 0 0 100 1 KM true = .ok [clW] ∧
    List.Sorted posKeyLe [clW] := by
  have hlen : (1 : ℤ) <
      ((discoverProgressive [bW5, cW5] 0 0 0 100 KM).length : ℤ) := by
    rw [w5_prog]
    norm_num
  exact ⟨hlen, w5_heval,
    c5_amended_sorted_when_pool_exceeds [bW5, cW5] 0 0 0 100 1 KM true [clW]
      hlen w5_heval⟩

/-- C4 witness: the concrete pool `[clW, blW]` (2 candidates, both
positioned at `t = 1`) with `maxPois = 1` satisfies the hypotheses;
selection succeeds with exactly one waypoint, keeping each segment's best
candidate. -/
theorem c4_segment_distribution_witness :
    (0 : ℤ) < 1 ∧ [clW, blW].Nodup ∧
    (∀ p ∈ [clW, blW], ∃ t, p.position_along_route = some t ∧
      0 ≤ t ∧ t ≤ 1) ∧
    ∃ out, optimize_poi_selection [clW, blW] 1 = .ok out ∧
      (out.length : ℤ) ≤ 1 ∧
      ((1 : ℤ) ≤ ([clW, blW].length : ℤ) → (out.length : ℤ) = 1) ∧
      ∀ i : ℕ, ∀ b, segmentBest [clW, blW] 1 i = some b →
        b ∈ out ∧ b ∈ posSegment [clW, blW] 1 i ∧
          ∀ x ∈ posSegment [clW, blW] 1 i, segKeyLe b x := by
  have hnd : [clW, blW].Nodup := by
    rw [List.nodup_cons]
    refine ⟨?_, List.nodup_singleton _⟩
    simp only [List.mem_singleton]
    exact fun h => blW_ne_clW h.symm
  have hposw : ∀ p ∈ [clW, blW], ∃ t, p.position_along_route = some t ∧
      0 ≤ t ∧ t ≤ 1 := by
    intro p hp
    rcases List.mem_cons.mp hp with rfl | hp2
    · exact ⟨1, rfl, by norm_num, le_refl 1⟩
    · rcases List.mem_cons.mp hp2 with rfl | hp3
      · exact ⟨1, rfl, by norm_num, le_refl 1⟩
      · exact absurd hp3 (List.not_mem_nil _)
  exact ⟨by norm_num, hnd, hposw,
    c4_segment_distribution [clW, blW] 1 (by norm_num) hnd hposw⟩

end TravelMarvel
